import Mathlib

/-!
# Shallow embedding of the ZombiesPlanet physics core

This file embeds `src/physics/PhysicsWorld.js`, `src/physics/PhysicsBody.js`,
`src/physics/Collider.js` and `src/physics/PlanetBody.js` in Lean 4 and proves
properties of the embedded code.

Conventions:
* JavaScript numbers are modelled as exact rationals (`ℚ`).
* `Math.sqrt` is modelled by an explicit parameter `sqrtF : ℚ → ℚ`; theorems
  that depend on actual square-root values carry `SqrtOk` hypotheses pinning
  `sqrtF` down at the inputs that occur, and concrete witnesses use a
  computable `sqrt0` that returns the exact root on the (perfect-square)
  inputs arising there.
* three.js vector/sphere/box methods used by the source are embedded from
  their three.js implementations (`Sphere.intersectsSphere` compares squared
  distances with `<=`, `Box3.intersectsBox` compares the six face planes,
  `Box3.intersectsSphere` clamps the center, `Vector3.normalize` divides by
  `length() || 1`).
* JavaScript `x || d` on numbers (falsy `0` picked up by the default) is
  embedded by `jsOr`/`jsOrQ`.
* In-place mutation is embedded by explicit state passing; the aliasing in
  `handlePlanetSurfaceInteraction` (the `normalize()` call mutating
  `fromCenter` before line 1019 recomputes `radialDir` from it) is reproduced
  faithfully.
-/

/-- 3D vector over exact rationals, modelling three.js `Vector3`. -/
structure Vec3 where
  x : ℚ
  y : ℚ
  z : ℚ
deriving DecidableEq, Repr

namespace Vec3

instance : Add Vec3 := ⟨fun a b => ⟨a.x + b.x, a.y + b.y, a.z + b.z⟩⟩
instance : Sub Vec3 := ⟨fun a b => ⟨a.x - b.x, a.y - b.y, a.z - b.z⟩⟩
instance : Neg Vec3 := ⟨fun a => ⟨-a.x, -a.y, -a.z⟩⟩
instance : SMul ℚ Vec3 := ⟨fun c a => ⟨c * a.x, c * a.y, c * a.z⟩⟩
instance : Zero Vec3 := ⟨⟨0, 0, 0⟩⟩
instance : Inhabited Vec3 := ⟨0⟩

@[simp] theorem add_def (a b : Vec3) : a + b = ⟨a.x + b.x, a.y + b.y, a.z + b.z⟩ := rfl
@[simp] theorem sub_def (a b : Vec3) : a - b = ⟨a.x - b.x, a.y - b.y, a.z - b.z⟩ := rfl
@[simp] theorem smul_def (c : ℚ) (a : Vec3) : c • a = ⟨c * a.x, c * a.y, c * a.z⟩ := rfl
@[simp] theorem zero_def : (0 : Vec3) = ⟨0, 0, 0⟩ := rfl

/-- three.js `Vector3.dot`. -/
def dot (a b : Vec3) : ℚ := a.x * b.x + a.y * b.y + a.z * b.z

/-- three.js `Vector3.lengthSq`. -/
def lengthSq (a : Vec3) : ℚ := dot a a

/-- three.js `Vector3.distanceToSquared`. -/
def distSq (a b : Vec3) : ℚ := lengthSq (a - b)

/-- three.js `Vector3.divideScalar` (`multiplyScalar(1/s)`; `1/0 = 0` in ℚ). -/
def divScalar (a : Vec3) (s : ℚ) : Vec3 := (1 / s) • a

/-- three.js `Vector3.normalize`: `divideScalar(length() || 1)`. -/
def normalize (sqrtF : ℚ → ℚ) (a : Vec3) : Vec3 :=
  let l := sqrtF (lengthSq a)
  divScalar a (if l = 0 then 1 else l)

/-- three.js `Vector3.clamp` with componentwise `max lo (min hi ·)`. -/
def clampV (a lo hi : Vec3) : Vec3 :=
  ⟨max lo.x (min hi.x a.x), max lo.y (min hi.y a.y), max lo.z (min hi.z a.z)⟩

theorem lengthSq_nonneg (a : Vec3) : 0 ≤ lengthSq a := by
  have hx := mul_self_nonneg a.x
  have hy := mul_self_nonneg a.y
  have hz := mul_self_nonneg a.z
  simp only [lengthSq, dot]
  linarith

theorem lengthSq_eq_zero_iff (a : Vec3) : lengthSq a = 0 ↔ a = 0 := by
  constructor
  · intro h
    have hx := mul_self_nonneg a.x
    have hy := mul_self_nonneg a.y
    have hz := mul_self_nonneg a.z
    simp only [lengthSq, dot] at h
    have hx0 : a.x * a.x = 0 := by linarith
    have hy0 : a.y * a.y = 0 := by linarith
    have hz0 : a.z * a.z = 0 := by linarith
    have : a.x = 0 := by nlinarith
    have : a.y = 0 := by nlinarith
    have : a.z = 0 := by nlinarith
    cases a
    simp_all
  · rintro rfl
    simp [lengthSq, dot]

theorem lengthSq_smul (c : ℚ) (a : Vec3) : lengthSq (c • a) = c ^ 2 * lengthSq a := by
  simp only [lengthSq, dot, smul_def]
  ring

end Vec3

/-- Specification of an exact square root of `q` (what `Math.sqrt` returns at
inputs where the float computation is exact). -/
def SqrtOk (sqrtF : ℚ → ℚ) (q : ℚ) : Prop :=
  0 ≤ sqrtF q ∧ sqrtF q * sqrtF q = q

/-- JavaScript `x || d` for an optional numeric field: `undefined` and `0` are
falsy and produce the default. -/
def jsOr (x : Option ℚ) (d : ℚ) : ℚ :=
  match x with
  | none => d
  | some v => if v = 0 then d else v

/-- JavaScript `x || d` for a present numeric value (`0` is falsy). -/
def jsOrQ (x d : ℚ) : ℚ := if x = 0 then d else x

/-- Collider shape: `SphereCollider` carries a radius, `BoxCollider` carries
half-extents (`Collider.js`). -/
inductive Shape where
  | sphere (radius : ℚ)
  | box (halfExtents : Vec3)
deriving DecidableEq, Repr

/-- A collider: its own position (cloned from the body position at
construction, synced on `updatePosition`) plus a shape. -/
structure Collider where
  position : Vec3
  shape : Shape
deriving DecidableEq, Repr

namespace Collider

/-- `Collider.updatePosition`. -/
def updatePosition (c : Collider) (p : Vec3) : Collider := { c with position := p }

/-- three.js `Box3.intersectsBox` for the axis-aligned box `pos ± he` pairs
(touching boxes intersect). -/
def boxIntersectsBox (pa ha pb hb : Vec3) : Bool :=
  decide ((pb + hb).x ≥ (pa - ha).x) && decide ((pb - hb).x ≤ (pa + ha).x) &&
  decide ((pb + hb).y ≥ (pa - ha).y) && decide ((pb - hb).y ≤ (pa + ha).y) &&
  decide ((pb + hb).z ≥ (pa - ha).z) && decide ((pb - hb).z ≤ (pa + ha).z)

/-- three.js `Box3.intersectsSphere`: clamp the sphere center into the box and
compare squared distance with the squared radius. -/
def boxIntersectsSphere (pb hb ps : Vec3) (r : ℚ) : Bool :=
  decide (Vec3.distSq (Vec3.clampV ps (pb - hb) (pb + hb)) ps ≤ r * r)

/-- `Collider.intersects` dispatch (`SphereCollider.intersects` /
`BoxCollider.intersects`); sphere-sphere is three.js `Sphere.intersectsSphere`
which compares squared distance with `<=`. -/
def intersects (a b : Collider) : Bool :=
  match a.shape, b.shape with
  | .sphere r1, .sphere r2 =>
      decide (Vec3.distSq b.position a.position ≤ (r1 + r2) * (r1 + r2))
  | .sphere r, .box hb => boxIntersectsSphere b.position hb a.position r
  | .box ha, .sphere r => boxIntersectsSphere a.position ha b.position r
  | .box ha, .box hb => boxIntersectsBox a.position ha b.position hb

end Collider

/-- The `{normal, depth, point}` record returned by `getCollisionInfo`. -/
structure CollisionInfo where
  normal : Vec3
  depth : ℚ
  point : Vec3
deriving DecidableEq, Repr

namespace Collider

/-- `SphereCollider.getCollisionInfo`, sphere-versus-sphere branch
(`Collider.js` lines 485-512): receiver `a`, argument `b`. -/
def sphereSphereInfo (sqrtF : ℚ → ℚ) (pa : Vec3) (r1 : ℚ) (pb : Vec3) (r2 : ℚ) :
    Option CollisionInfo :=
  let distance := sqrtF (Vec3.distSq pa pb)
  let minDistance := r1 + r2
  if distance < minDistance then
    let normal := Vec3.normalize sqrtF (pa - pb)
    let depth := minDistance - distance
    let point := r1 • normal + pa
    some ⟨normal, depth, point⟩
  else none

/-- `BoxCollider.getCollisionInfo`, box-versus-sphere branch: box `pb ± hb`
as receiver, sphere `(ps, r)` as argument. -/
def boxSphereInfo (sqrtF : ℚ → ℚ) (pb hb ps : Vec3) (r : ℚ) : Option CollisionInfo :=
  if boxIntersectsSphere pb hb ps r then
    let closestPoint := Vec3.clampV ps (pb - hb) (pb + hb)
    let distance := sqrtF (Vec3.distSq closestPoint ps)
    if distance > r then none
    else
      let normal := Vec3.normalize sqrtF (ps - closestPoint)
      some ⟨normal, r - distance, closestPoint⟩
  else none

/-- `BoxCollider.projectOntoAxis`: interval `(center - radius, center + radius)`
of the box projected onto `axis`. -/
def projectOntoAxis (pos he axis : Vec3) : ℚ × ℚ :=
  let center := Vec3.dot pos axis
  let radius := |he.x * axis.x| + |he.y * axis.y| + |he.z * axis.z|
  (center - radius, center + radius)

/-- Projected-interval overlap of two boxes along `axis`
(`min(proj1.max, proj2.max) - max(proj1.min, proj2.min)`). -/
def axisOverlap (pa ha pb hb axis : Vec3) : ℚ :=
  let p1 := projectOntoAxis pa ha axis
  let p2 := projectOntoAxis pb hb axis
  min p1.2 p2.2 - max p1.1 p2.1

/-- The normal-orientation step of the box-box loop: when an axis becomes the
minimum-overlap axis the code flips it in place if the center-to-center
displacement along it is negative. -/
def orientAxis (pa pb axis : Vec3) : Vec3 :=
  if Vec3.dot (pb - pa) axis < 0 then -axis else axis

/-- `BoxCollider.getCollisionInfo`, box-versus-box branch (`Collider.js`
lines 584-637): `Box3.intersectsBox` pre-check, then the three-axis
separating-axis loop with early `null` on non-positive overlap, keeping the
first axis of strictly-minimal overlap (initial `minDepth = Infinity` means
the X axis always wins the first comparison). -/
def boxBoxInfo (pa ha pb hb : Vec3) : Option CollisionInfo :=
  if boxIntersectsBox pa ha pb hb then
    let o1 := axisOverlap pa ha pb hb ⟨1, 0, 0⟩
    if o1 ≤ 0 then none
    else
      -- first iteration: `o1 < Infinity` always holds
      let d1 := o1
      let n1 := orientAxis pa pb ⟨1, 0, 0⟩
      let o2 := axisOverlap pa ha pb hb ⟨0, 1, 0⟩
      if o2 ≤ 0 then none
      else
        let d2 := if o2 < d1 then o2 else d1
        let n2 := if o2 < d1 then orientAxis pa pb ⟨0, 1, 0⟩ else n1
        let o3 := axisOverlap pa ha pb hb ⟨0, 0, 1⟩
        if o3 ≤ 0 then none
        else
          let d3 := if o3 < d2 then o3 else d2
          let n3 := if o3 < d2 then orientAxis pa pb ⟨0, 0, 1⟩ else n2
          some ⟨n3, d3, (1 / 2 : ℚ) • (pa + pb)⟩
  else none

/-- `Collider.getCollisionInfo` dispatch. The sphere-receiver-versus-box case
delegates to the box's method without flipping the normal
(`other.getCollisionInfo(this)` in `SphereCollider.getCollisionInfo`). -/
def getCollisionInfo (sqrtF : ℚ → ℚ) (a b : Collider) : Option CollisionInfo :=
  match a.shape, b.shape with
  | .sphere r1, .sphere r2 => sphereSphereInfo sqrtF a.position r1 b.position r2
  | .sphere r, .box hb => boxSphereInfo sqrtF b.position hb a.position r
  | .box ha, .sphere r => boxSphereInfo sqrtF a.position ha b.position r
  | .box ha, .box hb => boxBoxInfo a.position ha b.position hb

end Collider

/-- A physics body (`PhysicsBody.js`). `radius` is `some r` when the body was
constructed with a sphere collider (the `radius` option or the default), and
`none` when it carries a box collider (the JS `radius` property is then
`undefined`). `entityIsJumping` models the truthiness of
`body.entity && body.entity.isJumping`. -/
structure Body where
  position : Vec3
  rotation : Vec3
  velocity : Vec3
  acceleration : Vec3
  forces : Vec3
  mass : ℚ
  invMass : ℚ
  isStatic : Bool
  restitution : ℚ
  friction : ℚ
  onGround : Bool
  usesGravity : Bool
  maxFallSpeed : ℚ
  stabilizeThreshold : ℚ
  radius : Option ℚ
  halfExtents : Option Vec3
  collider : Collider
  isPlanet : Bool
  entityIsJumping : Bool
deriving DecidableEq, Repr

instance : Inhabited Body :=
  ⟨⟨0, 0, 0, 0, 0, 1, 1, false, 1/10, 1/10, false, true, 30, 1/20, some 1, none,
    ⟨0, .sphere 1⟩, false, false⟩⟩

/-- Options accepted by the `PhysicsBody` constructor (fields not modelled:
`entity` beyond its jump flag). -/
structure BodyOptions where
  position : Option Vec3 := none
  rotation : Option Vec3 := none
  velocity : Option Vec3 := none
  acceleration : Option Vec3 := none
  mass : Option ℚ := none
  isStatic : Option Bool := none
  restitution : Option ℚ := none
  friction : Option ℚ := none
  usesGravity : Option Bool := none
  radius : Option ℚ := none
  halfExtents : Option Vec3 := none
  entityIsJumping : Bool := false

/-- The `PhysicsBody` constructor (`PhysicsBody.js` lines 705-756). -/
def mkBody (o : BodyOptions) : Body :=
  let mass0 := o.mass.getD 1
  let invMass0 := if mass0 > 0 then 1 / mass0 else 0
  let isStatic := o.isStatic.getD false
  let mass := if isStatic then 0 else mass0
  let invMass := if isStatic then 0 else invMass0
  let position := o.position.getD 0
  let radius : Option ℚ :=
    match o.radius, o.halfExtents with
    | some r, _ => some r
    | none, some _ => none
    | none, none => some 1
  let collider : Collider :=
    match o.radius, o.halfExtents with
    | some r, _ => ⟨position, .sphere r⟩
    | none, some he => ⟨position, .box he⟩
    | none, none => ⟨position, .sphere 1⟩
  { position := position
    rotation := o.rotation.getD 0
    velocity := o.velocity.getD 0
    acceleration := o.acceleration.getD 0
    forces := 0
    mass := mass
    invMass := invMass
    isStatic := isStatic
    restitution := o.restitution.getD (1/10)
    friction := o.friction.getD (1/10)
    onGround := false
    usesGravity := o.usesGravity.getD true
    maxFallSpeed := 30
    stabilizeThreshold := 1/20
    radius := radius
    halfExtents := (match o.radius, o.halfExtents with
                    | some _, _ => none
                    | none, some he => some he
                    | none, none => none)
    collider := collider
    isPlanet := false
    entityIsJumping := o.entityIsJumping }

/-- The `StaticBody` constructor: forces `isStatic = true`, `mass = 0`,
`usesGravity = false` before delegating to `PhysicsBody`. -/
def mkStaticBody (o : BodyOptions) : Body :=
  mkBody { o with isStatic := some true, mass := some 0, usesGravity := some false }

namespace Body

/-- `PhysicsBody.applyForce`. -/
def applyForce (b : Body) (f : Vec3) : Body :=
  if b.isStatic then b else { b with forces := b.forces + f }

/-- `PhysicsBody.applyImpulse`. -/
def applyImpulse (b : Body) (j : Vec3) : Body :=
  if b.isStatic then b else { b with velocity := b.velocity + b.invMass • j }

/-- `PhysicsBody.integrateForces`. -/
def integrateForces (dt : ℚ) (b : Body) : Body :=
  if b.isStatic then b
  else
    let acceleration := b.invMass • b.forces
    let velocity := b.velocity + dt • acceleration
    let velocity :=
      if velocity.y < -b.maxFallSpeed then { velocity with y := -b.maxFallSpeed }
      else velocity
    { b with acceleration := acceleration, velocity := velocity, forces := 0 }

/-- `PhysicsBody.stabilize`. -/
def stabilize (sqrtF : ℚ → ℚ) (b : Body) : Body :=
  let v := b.velocity
  let v := if |v.x| < b.stabilizeThreshold then { v with x := 0 } else v
  let v := if |v.y| < b.stabilizeThreshold then { v with y := 0 } else v
  let v := if |v.z| < b.stabilizeThreshold then { v with z := 0 } else v
  let v :=
    if b.onGround then
      let horizontalSpeed := sqrtF (v.x * v.x + v.z * v.z)
      if horizontalSpeed < b.stabilizeThreshold * 2 then { v with x := 0, z := 0 }
      else v
    else v
  { b with velocity := v }

/-- `PhysicsBody.integrateVelocity`: position update, stabilization, collider
sync. -/
def integrateVelocity (sqrtF : ℚ → ℚ) (dt : ℚ) (b : Body) : Body :=
  if b.isStatic then b
  else
    let b := { b with position := b.position + dt • b.velocity }
    let b := stabilize sqrtF b
    { b with collider := b.collider.updatePosition b.position }

/-- The field assignment `body.onGround = g`. -/
def setOnGround (b : Body) (g : Bool) : Body := { b with onGround := g }

/-- `PhysicsBody.checkCollision`: delegates to the collider query. -/
def checkCollision (sqrtF : ℚ → ℚ) (a other : Body) : Option CollisionInfo :=
  Collider.getCollisionInfo sqrtF a.collider other.collider

end Body

/-- The planet field (`PlanetBody.js`). Only the fields read by the physics
pass are modelled (the planet's own `StaticBody` state is never integrated and
`PlanetBody.checkCollision` returns `null`). -/
structure Planet where
  radius : ℚ
  center : Vec3
  gravityStrength : ℚ
  surfaceOffset : ℚ
  snapForce : ℚ
  groundThreshold : ℚ
  epsilon : ℚ
  minSafeDistance : ℚ
  southPoleRegion : ℚ
deriving DecidableEq, Repr

/-- Options of the `PlanetBody` constructor. -/
structure PlanetOptions where
  radius : Option ℚ := none
  position : Option Vec3 := none
  gravityStrength : Option ℚ := none

/-- The `PlanetBody` constructor (`PlanetBody.js` lines 938-963); `radius` and
`gravityStrength` use JavaScript `||` defaults. -/
def mkPlanet (o : PlanetOptions) : Planet :=
  let radius := jsOr o.radius 20
  { radius := radius
    center := o.position.getD 0
    gravityStrength := jsOr o.gravityStrength 25
    surfaceOffset := 1/5
    snapForce := 1/2
    groundThreshold := 3/10
    epsilon := 1/1000000
    minSafeDistance := radius * (9/10)
    southPoleRegion := radius * (1/10) }

namespace Planet

/-- `PlanetBody.applyGravitationalForce`. -/
def applyGravitationalForce (sqrtF : ℚ → ℚ) (p : Planet) (b : Body) : Body :=
  if !b.usesGravity then b
  else
    let toCenter := p.center - b.position
    let distanceSq := max (Vec3.lengthSq toCenter) p.epsilon
    let distance := sqrtF distanceSq
    let gravityDir := toCenter.divScalar distance
    let force := (b.mass * p.gravityStrength) • gravityDir
    b.applyForce force

/-- The safety-teleport block of `handlePlanetSurfaceInteraction` (lines
999-1016): returns the updated body and the (possibly `normalize()`-mutated)
`fromCenter` vector. -/
def surfaceTeleportStep (sqrtF : ℚ → ℚ) (p : Planet) (fromCenter0 : Vec3)
    (distance : ℚ) (b : Body) : Body × Vec3 :=
  if distance < p.minSafeDistance then
    let unit := Vec3.normalize sqrtF fromCenter0
    let safePos := p.center + (p.minSafeDistance + jsOr b.radius (1/2)) • unit
    let b1 := { b with position := safePos,
                       collider := b.collider.updatePosition safePos }
    -- `fromCenter.normalize()` again on the already-normalized vector
    let radialDir0 := Vec3.normalize sqrtF unit
    let normalVel := Vec3.dot b1.velocity radialDir0
    let b2 :=
      if normalVel < 0 then
        { b1 with velocity := b1.velocity - normalVel • radialDir0 }
      else b1
    (b2, radialDir0)
  else (b, fromCenter0)

/-- The grounded-state block of `handlePlanetSurfaceInteraction` (lines
1050-1072): inward-velocity cancellation, friction, pole damping. -/
def surfaceGroundStep (radialDir : Vec3) (b3 : Body) : Body :=
  if b3.onGround then
    let normalVel := Vec3.dot b3.velocity radialDir
    let b4 :=
      if normalVel < 0 then
        { b3 with velocity := b3.velocity - normalVel • radialDir }
      else b3
    let b5 := { b4 with velocity := (98/100 : ℚ) • b4.velocity }
    let dotWithSouth := Vec3.dot radialDir ⟨0, -1, 0⟩
    if dotWithSouth > 95/100 then
      { b5 with velocity := (95/100 : ℚ) • b5.velocity }
    else b5
  else b3

/-- `PlanetBody.handlePlanetSurfaceInteraction` (`PlanetBody.js` lines
992-1073). The teleport branch mutates `fromCenter` in place via
`normalize()`; the `radialDir` of line 1019 is therefore computed from the
*normalized* vector but divided by the *pre-teleport* `distance`, exactly as
in the source. The write to `body.entity.surfaceNormal` is an external side
effect and is not modelled. -/
def handlePlanetSurfaceInteraction (sqrtF : ℚ → ℚ) (p : Planet) (_dt : ℚ) (b : Body) :
    Body :=
  if !b.usesGravity then b
  else
    let fromCenter0 := b.position - p.center
    let distance := max (sqrtF (Vec3.lengthSq fromCenter0)) p.epsilon
    let st := surfaceTeleportStep sqrtF p fromCenter0 distance b
    let b1 := st.1
    let radialDir := st.2.divScalar distance
    let bodyRadius := jsOr b1.radius (1/2)
    let idealDistance := p.radius + p.surfaceOffset + bodyRadius
    let distanceError := idealDistance - distance
    let b2 := b1.setOnGround (decide (|distanceError| < p.groundThreshold))
    let b3 :=
      if distanceError > 1/100 then
        let pushFactor := if b2.entityIsJumping then 1/10 else p.snapForce
        b2.applyForce ((distanceError * pushFactor * b2.mass) • radialDir)
      else b2
    surfaceGroundStep radialDir b3

end Planet

/-- The physics world (`PhysicsWorld.js`). `engine.config` tunables become
constructor parameters; `debugDraw` and logging are irrelevant side effects
and are not modelled. -/
structure World where
  bodies : List Body
  staticBodies : List Body
  gravity : Vec3
  accumulator : ℚ
  fixedTimeStep : ℚ
  groundThreshold : ℚ
  groundRayDistance : ℚ
  planetBody : Option Planet
  maxSubSteps : ℕ
deriving Repr

/-- The `PhysicsWorld` constructor: `gravity = (0, config.gravity, 0)`,
`fixedTimeStep = 1 / config.physicsFPS`. -/
def mkWorld (configGravity physicsFPS : ℚ) : World :=
  { bodies := []
    staticBodies := []
    gravity := ⟨0, configGravity, 0⟩
    accumulator := 0
    fixedTimeStep := 1 / physicsFPS
    groundThreshold := 15/100
    groundRayDistance := 1/5
    planetBody := none
    maxSubSteps := 3 }

namespace World

/-- `PhysicsWorld.addBody` (the non-`PhysicsBody` rejection path leaves the
world unchanged and is outside this model's `Body` type). -/
def addBody (w : World) (b : Body) : World :=
  if b.isStatic then { w with staticBodies := w.staticBodies ++ [b] }
  else { w with bodies := w.bodies ++ [b] }

/-- `PhysicsWorld.clear`: `engine.player?.physicsBody` is passed explicitly. -/
def clear (w : World) (playerBody : Option Body) : World :=
  match playerBody with
  | some pb =>
      { w with bodies := if pb.isStatic then [] else [pb]
               staticBodies := if pb.isStatic then [pb] else [] }
  | none => { w with bodies := [], staticBodies := [] }

/-- `PhysicsWorld.setPlanetBody`. -/
def setPlanetBody (w : World) (p : Planet) : World := { w with planetBody := some p }

/-- `PhysicsWorld.checkCollision`: both bodies always own a collider (the
constructor installs one), so the sphere-distance fallback for collider-less
bodies is unreachable and only the collider path is modelled. -/
def checkCollision (a b : Body) : Bool :=
  Collider.intersects a.collider b.collider

/-- The `collisionInfo` branch of `PhysicsWorld.resolveCollision`
(lines 216-271): impulse plus gentle positional correction.
`bodyX.restitution || 0` and `bodyX.invMass || 0` are JavaScript `||` on
always-present numbers, embedded via `jsOrQ`. -/
def resolveWithInfo (a b : Body) (normal : Vec3) (depth : ℚ) : Body × Body :=
  let relativeVelocity := a.velocity - b.velocity
  let velAlongNormal := Vec3.dot relativeVelocity normal
  if velAlongNormal > 0 then (a, b)
  else
    let restitution := min (jsOrQ a.restitution 0) (jsOrQ b.restitution 0)
    let j0 := -(1 + restitution) * velAlongNormal
    let invMassA := jsOrQ a.invMass 0
    let invMassB := jsOrQ b.invMass 0
    let invMassSum := invMassA + invMassB
    if invMassSum = 0 then (a, b)
    else
      let j := j0 / invMassSum
      let impulse := j • normal
      let a1 := if invMassA > 0 then { a with velocity := a.velocity + invMassA • impulse } else a
      let b1 := if invMassB > 0 then { b with velocity := b.velocity - invMassB • impulse } else b
      if depth > 0 then
        let correction := (depth * (1/10)) • normal
        let a2 :=
          if invMassA > 0 then
            let pos := a1.position + (invMassA / invMassSum) • correction
            { a1 with position := pos, collider := a1.collider.updatePosition pos }
          else a1
        let b2 :=
          if invMassB > 0 then
            let pos := b1.position - (invMassB / invMassSum) • correction
            { b1 with position := pos, collider := b1.collider.updatePosition pos }
          else b1
        (a2, b2)
      else (a1, b1)

/-- The fallback branch of `PhysicsWorld.resolveCollision` (lines 273-325),
taken when neither collider query yields contact info. -/
def resolveFallback (sqrtF : ℚ → ℚ) (a b : Body) : Body × Body :=
  let normal := Vec3.normalize sqrtF (a.position - b.position)
  let relativeVelocity := a.velocity - b.velocity
  let velAlongNormal := Vec3.dot relativeVelocity normal
  if velAlongNormal > 0 then (a, b)
  else
    let e := min (jsOrQ a.restitution (3/10)) (jsOrQ b.restitution (3/10))
    let j := -(1 + e) * velAlongNormal
    let invMassSum := jsOrQ a.invMass 0 + jsOrQ b.invMass 0
    if invMassSum = 0 then (a, b)
    else
      let impulse := j / invMassSum
      let impulseVec := impulse • normal
      let a1 := if a.invMass > 0 then { a with velocity := a.velocity + a.invMass • impulseVec } else a
      let b1 := if b.invMass > 0 then { b with velocity := b.velocity - b.invMass • impulseVec } else b
      let minDist := jsOr a.radius (1/2) + jsOr b.radius (1/2)
      let dist := sqrtF (Vec3.distSq a.position b.position)
      let correction := max (minDist - dist) 0 * (3/10)
      if correction > 0 then
        let correctionVec := correction • normal
        let corrA := (a.invMass / invMassSum) • correctionVec
        let corrB := (b.invMass / invMassSum) • correctionVec
        let a2 :=
          if a.invMass > 0 then
            let pos := a1.position + corrA
            { a1 with position := pos, collider := a1.collider.updatePosition pos }
          else a1
        let b2 :=
          if b.invMass > 0 then
            let pos := b1.position - corrB
            { b1 with position := pos, collider := b1.collider.updatePosition pos }
          else b1
        (a2, b2)
      else (a1, b1)

/-- `PhysicsWorld.resolveCollision`: try `bodyA.checkCollision(bodyB)`, then
`bodyB.checkCollision(bodyA)` with inverted normal, else the sphere fallback. -/
def resolveCollision (sqrtF : ℚ → ℚ) (a b : Body) : Body × Body :=
  let infoA := Body.checkCollision sqrtF a b
  let info : Option CollisionInfo :=
    match infoA with
    | some i => some i
    | none =>
        match Body.checkCollision sqrtF b a with
        | some i => some { i with normal := (-1 : ℚ) • i.normal }
        | none => none
  match info with
  | some i => resolveWithInfo a b i.normal i.depth
  | none => resolveFallback sqrtF a b

/-- One dynamic-dynamic iteration of `detectCollisions`: indices `i < j` into
the dynamic list. -/
def pairStepDyn (sqrtF : ℚ → ℚ) (d : List Body) (i j : ℕ) : List Body :=
  let a := d.getD i default
  let b := d.getD j default
  if checkCollision a b then
    let r := resolveCollision sqrtF a b
    (d.set i r.1).set j r.2
  else d

/-- One dynamic-static iteration of `detectCollisions`: dynamic index `i`,
static index `k`; planets are skipped. -/
def pairStepStatic (sqrtF : ℚ → ℚ) (ds : List Body × List Body) (i k : ℕ) :
    List Body × List Body :=
  let a := ds.1.getD i default
  let s := ds.2.getD k default
  if s.isPlanet then ds
  else if checkCollision a s then
    let r := resolveCollision sqrtF a s
    (ds.1.set i r.1, ds.2.set k r.2)
  else ds

/-- `PhysicsWorld.detectCollisions` (lines 161-184): brute-force pairwise pass
with in-place updates; list lengths are invariant so the loop bounds read from
the original lists match the source's live reads. -/
def detectCollisions (sqrtF : ℚ → ℚ) (dyn stat : List Body) : List Body × List Body :=
  (List.range dyn.length).foldl
    (fun ds i =>
      let d1 := (List.range' (i + 1) (dyn.length - (i + 1))).foldl
        (fun d j => pairStepDyn sqrtF d i j) ds.1
      (List.range ds.2.length).foldl
        (fun p k => pairStepStatic sqrtF p i k) (d1, ds.2))
    (dyn, stat)

/-- `PhysicsWorld.checkWorldBounds` (lines 327-347). The `y`-clamp does not
resync the collider. -/
def checkWorldBounds (w : World) (b : Body) : Body :=
  if w.planetBody.isSome then b
  else if b.position.y < w.groundThreshold then
    let b1 :=
      if b.position.y < 0 then { b with position := { b.position with y := 1/20 } }
      else b
    if b1.velocity.y ≤ 1/10 then
      let b2 := { b1 with onGround := true }
      if b2.velocity.y < 0 then { b2 with velocity := { b2.velocity with y := 0 } }
      else b2
    else b1
  else { b with onGround := false }

/-- Step 1 of `fixedUpdate`: the emergency planet-penetration correction
(lines 104-123). `minSafeDistance` is recomputed as `radius * 0.9` at the call
site, and no velocity change is made here. -/
def planetSafetyCheck (sqrtF : ℚ → ℚ) (p : Planet) (b : Body) : Body :=
  let distVector := b.position - p.center
  let distance := sqrtF (Vec3.lengthSq distVector)
  let minSafeDistance := p.radius * (9/10)
  if distance < minSafeDistance then
    let safePos :=
      p.center + (minSafeDistance + jsOr b.radius (1/2)) • Vec3.normalize sqrtF distVector
    { b with position := safePos, collider := b.collider.updatePosition safePos }
  else b

/-- Step 3 of `fixedUpdate` for one body: gravity application (radial if a
planet is installed, uniform otherwise) followed by force integration. -/
def gravityPhaseBody (sqrtF : ℚ → ℚ) (dt : ℚ) (w : World) (b : Body) : Body :=
  let b1 :=
    if b.usesGravity then
      match w.planetBody with
      | some p => p.applyGravitationalForce sqrtF b
      | none => b.applyForce (b.mass • w.gravity)
    else b
  Body.integrateForces dt b1

/-- The body obtained from `b` by steps 1-3 of `fixedUpdate` in a world with a
planet installed: emergency correction, velocity integration, gravity and
force integration. -/
def preSurfaceBody (sqrtF : ℚ → ℚ) (dt : ℚ) (w : World) (p : Planet) (b : Body) : Body :=
  gravityPhaseBody sqrtF dt w (Body.integrateVelocity sqrtF dt (planetSafetyCheck sqrtF p b))

/-- `PhysicsWorld.fixedUpdate` (lines 101-159): the six phases in source
order. -/
def fixedUpdate (sqrtF : ℚ → ℚ) (dt : ℚ) (w : World) : World :=
  let bodies1 :=
    match w.planetBody with
    | some p => w.bodies.map (planetSafetyCheck sqrtF p)
    | none => w.bodies
  let bodies2 := bodies1.map (Body.integrateVelocity sqrtF dt)
  let bodies3 := bodies2.map (gravityPhaseBody sqrtF dt w)
  let bodies4 :=
    match w.planetBody with
    | some p => bodies3.map (p.handlePlanetSurfaceInteraction sqrtF dt)
    | none => bodies3
  let dsPair := detectCollisions sqrtF bodies4 w.staticBodies
  let bodies6 :=
    if w.planetBody.isSome then dsPair.1
    else dsPair.1.map (checkWorldBounds w)
  { w with bodies := bodies6, staticBodies := dsPair.2 }

/-- The accumulator-draining loop of `PhysicsWorld.update` (lines 82-87),
with the loop bound `substep < maxSubSteps` reflected as structural fuel:
returns the sub-step sizes emitted, the remaining accumulator and the final
`substep` counter. -/
def updateStepsAux (ft : ℚ) : ℕ → ℚ → ℕ → List ℚ × ℚ × ℕ
  | 0, acc, count => ([], acc, count)
  | n + 1, acc, count =>
      if acc ≥ ft then
        let r := updateStepsAux ft n (acc - ft) (count + 1)
        (ft :: r.1, r.2.1, r.2.2)
      else ([], acc, count)

/-- The sub-step schedule of `PhysicsWorld.update`: the draining loop plus the
final partial sub-step (lines 90-93) that fires when the loop exhausted
`maxSubSteps` with accumulator still positive. -/
def updateSteps (ft : ℚ) (maxN : ℕ) (acc : ℚ) : List ℚ × ℚ :=
  let r := updateStepsAux ft maxN acc 0
  if r.2.2 ≥ maxN ∧ r.2.1 > 0 then (r.1 ++ [r.2.1], 0) else (r.1, r.2.1)

/-- `PhysicsWorld.update` (lines 75-94): clamp the frame delta to `0.1`, add
to the accumulator, run the scheduled sub-steps (each a `fixedUpdate`, which
never reads or writes the accumulator), store the final accumulator. -/
def update (sqrtF : ℚ → ℚ) (deltaTime : ℚ) (w : World) : World :=
  let cappedDelta := min deltaTime (1/10)
  let acc1 := w.accumulator + cappedDelta
  let sched := updateSteps w.fixedTimeStep w.maxSubSteps acc1
  let w1 := sched.1.foldl (fun wi s => fixedUpdate sqrtF s wi) w
  { w1 with accumulator := sched.2 }

end World

/-- A computable square root valid on the perfect squares that occur in the
concrete traces used by witnesses and counterexamples below. -/
def sqrt0 (q : ℚ) : ℚ :=
  if q = 0 then 0
  else if q = 1 then 1
  else if q = 4 then 2
  else if q = 9/4 then 3/2
  else if q = 289 then 17
  else if q = 361 then 19
  else 0

theorem jsOrQ_zero (x : ℚ) : jsOrQ x 0 = x := by
  unfold jsOrQ; split <;> simp_all

theorem Vec3.smul_smul (c d : ℚ) (v : Vec3) : c • (d • v) = (c * d) • v := by
  simp only [Vec3.smul_def]; ring_nf

theorem Vec3.zero_smul (v : Vec3) : (0 : ℚ) • v = 0 := by
  simp [Vec3.smul_def]

theorem Vec3.add_zero (v : Vec3) : v + 0 = v := by
  cases v; simp

theorem Vec3.distSq_comm (a b : Vec3) : Vec3.distSq a b = Vec3.distSq b a := by
  simp only [Vec3.distSq, Vec3.lengthSq, Vec3.dot, Vec3.sub_def]; ring

theorem Vec3.distSq_add_left (a v : Vec3) : Vec3.distSq (a + v) a = Vec3.lengthSq v := by
  simp only [Vec3.distSq, Vec3.lengthSq, Vec3.dot, Vec3.sub_def, Vec3.add_def]; ring_nf

/-- C10: `World.clear()` resets the dynamic and static body lists to contain
only the player's physics body (in the list matching its `isStatic` flag), or
to be empty when no player body exists, and changes no other world field:
`planetBody`, `gravity` and `accumulator` (and the remaining scheduler and
ground-check fields) keep their values, so the per-body gravity phase of
subsequent updates — which branches only on `planetBody` — is unchanged, even
though the planet's static body is no longer in any body list. -/
theorem c10_clear (w : World) (playerBody : Option Body) :
    (World.clear w playerBody).bodies =
      (match playerBody with
       | some pb => if pb.isStatic then [] else [pb]
       | none => []) ∧
    (World.clear w playerBody).staticBodies =
      (match playerBody with
       | some pb => if pb.isStatic then [pb] else []
       | none => []) ∧
    (World.clear w playerBody).planetBody = w.planetBody ∧
    (World.clear w playerBody).gravity = w.gravity ∧
    (World.clear w playerBody).accumulator = w.accumulator ∧
    (World.clear w playerBody).fixedTimeStep = w.fixedTimeStep ∧
    (World.clear w playerBody).groundThreshold = w.groundThreshold ∧
    (World.clear w playerBody).groundRayDistance = w.groundRayDistance ∧
    (World.clear w playerBody).maxSubSteps = w.maxSubSteps ∧
    (∀ (sqrtF : ℚ → ℚ) (dt : ℚ) (b : Body),
      World.gravityPhaseBody sqrtF dt (World.clear w playerBody) b =
        World.gravityPhaseBody sqrtF dt w b) := by
  cases playerBody <;>
    simp [World.clear, World.gravityPhaseBody]

/-- C9 (corrected): when no planet field is set, `checkWorldBounds` clamps a
body's height to `0.05` only when it is below `0` (not merely below the
`groundThreshold`), marks a body below the threshold grounded only when its
vertical velocity is at most `0.1` (zeroing it only when negative), leaves
`onGround` untouched for a fast-rising body below the threshold, and marks
every body at or above the threshold not grounded. -/
theorem c9_amended (w : World) (b : Body) (hp : w.planetBody = none) :
    (b.position.y < w.groundThreshold →
      (World.checkWorldBounds w b).position =
        (if b.position.y < 0 then { b.position with y := 1/20 } else b.position) ∧
      (b.velocity.y ≤ 1/10 →
        (World.checkWorldBounds w b).onGround = true ∧
        (World.checkWorldBounds w b).velocity =
          (if b.velocity.y < 0 then { b.velocity with y := 0 } else b.velocity)) ∧
      (1/10 < b.velocity.y →
        (World.checkWorldBounds w b).onGround = b.onGround ∧
        (World.checkWorldBounds w b).velocity = b.velocity)) ∧
    (w.groundThreshold ≤ b.position.y →
      (World.checkWorldBounds w b).onGround = false ∧
      (World.checkWorldBounds w b).position = b.position ∧
      (World.checkWorldBounds w b).velocity = b.velocity) := by
  unfold World.checkWorldBounds
  simp only [hp, Option.isSome_none, Bool.false_eq_true, if_false]
  constructor
  · intro hy
    simp only [if_pos hy]
    refine ⟨?_, ?_, ?_⟩
    · split_ifs <;> simp_all
    · intro hv; split_ifs <;> simp_all
    · intro hv
      have : ¬ b.velocity.y ≤ 1/10 := by linarith
      split_ifs <;> simp_all
  · intro hy
    have : ¬ b.position.y < w.groundThreshold := by linarith
    simp [this]


theorem Vec3.ext3 {a b : Vec3} (hx : a.x = b.x) (hy : a.y = b.y) (hz : a.z = b.z) :
    a = b := by
  cases a; cases b; simp_all

/-- Flat world for the C9 instances (config gravity `-20`, 120 physics FPS). -/
def flatWorldC9 : World := mkWorld (-20) 120

/-- Body at height `0.1` rising at `0.5`, exhibiting C9's failure. -/
def bodyC9 : Body := mkBody { position := some ⟨0, 1/10, 0⟩, velocity := some ⟨0, 1/2, 0⟩ }

/-- C9 counterexample: with no planet set, a dynamic body at height `0.1` —
below the ground threshold `0.15` — with upward vertical velocity `0.5` is
left exactly where it was (not clamped to the minimum height `0.05`) and is
*not* classified as grounded, contradicting the claim that the check clamps
and grounds every body below the threshold. -/
theorem c9_counterexample :
    flatWorldC9.planetBody = none ∧
    bodyC9.position.y < flatWorldC9.groundThreshold ∧
    (World.checkWorldBounds flatWorldC9 bodyC9).onGround = false ∧
    (World.checkWorldBounds flatWorldC9 bodyC9).position = bodyC9.position ∧
    bodyC9.position.y ≠ 1/20 := by
  have h1 : bodyC9.position.y = 1/10 := rfl
  have h2 : flatWorldC9.groundThreshold = 15/100 := rfl
  refine ⟨rfl, ?_, ?_, ?_, ?_⟩
  · rw [h1, h2]; norm_num
  · with_unfolding_all rfl
  · with_unfolding_all rfl
  · rw [h1]; norm_num

/-- Witness for `c9_amended` at the concrete flat world and body above. -/
theorem c9_amended_witness :
    flatWorldC9.planetBody = none ∧
    ((bodyC9.position.y < flatWorldC9.groundThreshold →
      (World.checkWorldBounds flatWorldC9 bodyC9).position =
        (if bodyC9.position.y < 0 then { bodyC9.position with y := 1/20 }
         else bodyC9.position) ∧
      (bodyC9.velocity.y ≤ 1/10 →
        (World.checkWorldBounds flatWorldC9 bodyC9).onGround = true ∧
        (World.checkWorldBounds flatWorldC9 bodyC9).velocity =
          (if bodyC9.velocity.y < 0 then { bodyC9.velocity with y := 0 }
           else bodyC9.velocity)) ∧
      (1/10 < bodyC9.velocity.y →
        (World.checkWorldBounds flatWorldC9 bodyC9).onGround = bodyC9.onGround ∧
        (World.checkWorldBounds flatWorldC9 bodyC9).velocity = bodyC9.velocity)) ∧
    (flatWorldC9.groundThreshold ≤ bodyC9.position.y →
      (World.checkWorldBounds flatWorldC9 bodyC9).onGround = false ∧
      (World.checkWorldBounds flatWorldC9 bodyC9).position = bodyC9.position ∧
      (World.checkWorldBounds flatWorldC9 bodyC9).velocity = bodyC9.velocity)) := by
  have hp : flatWorldC9.planetBody = none := rfl
  exact ⟨hp, c9_amended flatWorldC9 bodyC9 hp⟩

/-- The scalar impulse of the specification:
`j = -(1+e) * velAlongNormal / (invMassA + invMassB)` with
`e = min(restitutionA, restitutionB)`. -/
def impulseScalar (a b : Body) (normal : Vec3) : ℚ :=
  -(1 + min a.restitution b.restitution) * Vec3.dot (a.velocity - b.velocity) normal /
    (a.invMass + b.invMass)

/-- C3: resolving a pair with collision info `{normal, depth}`: if the
relative velocity of A w.r.t. B along the normal is positive the resolution
changes neither velocities nor positions; if the inverse masses sum to zero it
is skipped entirely; otherwise A's velocity changes by `+j*invMassA*normal`
and B's by `-j*invMassB*normal` with
`j = -(1+min(restA,restB)) * velAlongNormal / (invMassA+invMassB)`. -/
theorem c3_resolve_impulse (a b : Body) (normal : Vec3) (depth : ℚ)
    (ha : 0 ≤ a.invMass) (hb : 0 ≤ b.invMass) :
    (0 < Vec3.dot (a.velocity - b.velocity) normal →
      World.resolveWithInfo a b normal depth = (a, b)) ∧
    (a.invMass + b.invMass = 0 →
      World.resolveWithInfo a b normal depth = (a, b)) ∧
    (Vec3.dot (a.velocity - b.velocity) normal ≤ 0 → a.invMass + b.invMass ≠ 0 →
      (World.resolveWithInfo a b normal depth).1.velocity =
        a.velocity + (impulseScalar a b normal * a.invMass) • normal ∧
      (World.resolveWithInfo a b normal depth).2.velocity =
        b.velocity - (impulseScalar a b normal * b.invMass) • normal) := by
  refine ⟨?_, ?_, ?_⟩
  · intro h
    unfold World.resolveWithInfo
    simp only [jsOrQ_zero]
    rw [if_pos h]
  · intro h
    unfold World.resolveWithInfo
    simp only [jsOrQ_zero]
    by_cases hv : 0 < Vec3.dot (a.velocity - b.velocity) normal
    · rw [if_pos hv]
    · rw [if_neg hv, if_pos h]
  · intro hv hsum
    have hnot : ¬ 0 < Vec3.dot (a.velocity - b.velocity) normal := by linarith
    unfold World.resolveWithInfo
    simp only [jsOrQ_zero]
    rw [if_neg hnot, if_neg hsum]
    have hone : ∀ (x : Body) (p : Vec3),
        ({ x with position := p, collider := x.collider.updatePosition p } : Body).velocity
          = x.velocity := fun _ _ => rfl
    constructor
    · by_cases hd : 0 < depth
      · rw [if_pos hd]
        dsimp only
        by_cases hA : 0 < a.invMass
        · rw [if_pos hA, hone, if_pos hA]
          dsimp only
          apply Vec3.ext3 <;>
            · simp only [impulseScalar, Vec3.smul_def, Vec3.add_def, Vec3.sub_def]
              ring
        · rw [if_neg hA, if_neg hA]
          have hA0 : a.invMass = 0 := le_antisymm (not_lt.mp hA) ha
          apply Vec3.ext3 <;>
            · simp only [impulseScalar, hA0, Vec3.smul_def, Vec3.add_def, Vec3.sub_def]
              ring
      · rw [if_neg hd]
        dsimp only
        by_cases hA : 0 < a.invMass
        · rw [if_pos hA]
          dsimp only
          apply Vec3.ext3 <;>
            · simp only [impulseScalar, Vec3.smul_def, Vec3.add_def, Vec3.sub_def]
              ring
        · rw [if_neg hA]
          have hA0 : a.invMass = 0 := le_antisymm (not_lt.mp hA) ha
          apply Vec3.ext3 <;>
            · simp only [impulseScalar, hA0, Vec3.smul_def, Vec3.add_def, Vec3.sub_def]
              ring
    · by_cases hd : 0 < depth
      · rw [if_pos hd]
        dsimp only
        by_cases hB : 0 < b.invMass
        · rw [if_pos hB, hone, if_pos hB]
          dsimp only
          apply Vec3.ext3 <;>
            · simp only [impulseScalar, Vec3.smul_def, Vec3.add_def, Vec3.sub_def]
              ring
        · rw [if_neg hB, if_neg hB]
          have hB0 : b.invMass = 0 := le_antisymm (not_lt.mp hB) hb
          apply Vec3.ext3 <;>
            · simp only [impulseScalar, hB0, Vec3.smul_def, Vec3.add_def, Vec3.sub_def]
              ring
      · rw [if_neg hd]
        dsimp only
        by_cases hB : 0 < b.invMass
        · rw [if_pos hB]
          dsimp only
          apply Vec3.ext3 <;>
            · simp only [impulseScalar, Vec3.smul_def, Vec3.add_def, Vec3.sub_def]
              ring
        · rw [if_neg hB]
          have hB0 : b.invMass = 0 := le_antisymm (not_lt.mp hB) hb
          apply Vec3.ext3 <;>
            · simp only [impulseScalar, hB0, Vec3.smul_def, Vec3.add_def, Vec3.sub_def]
              ring

/-- Colliding pair for the C3 witness: a 2 kg body moving at `(-1,0,0)`
against a unit-mass body at rest. -/
def bodyC3A : Body := mkBody { mass := some 2, velocity := some ⟨-1, 0, 0⟩ }

def bodyC3B : Body := mkBody {}

/-- Witness for `c3_resolve_impulse` at concrete bodies, normal `(1,0,0)` and
depth `0.5`. -/
theorem c3_resolve_impulse_witness :
    0 ≤ bodyC3A.invMass ∧ 0 ≤ bodyC3B.invMass ∧
    ((0 < Vec3.dot (bodyC3A.velocity - bodyC3B.velocity) ⟨1, 0, 0⟩ →
      World.resolveWithInfo bodyC3A bodyC3B ⟨1, 0, 0⟩ (1/2) = (bodyC3A, bodyC3B)) ∧
    (bodyC3A.invMass + bodyC3B.invMass = 0 →
      World.resolveWithInfo bodyC3A bodyC3B ⟨1, 0, 0⟩ (1/2) = (bodyC3A, bodyC3B)) ∧
    (Vec3.dot (bodyC3A.velocity - bodyC3B.velocity) ⟨1, 0, 0⟩ ≤ 0 →
      bodyC3A.invMass + bodyC3B.invMass ≠ 0 →
      (World.resolveWithInfo bodyC3A bodyC3B ⟨1, 0, 0⟩ (1/2)).1.velocity =
        bodyC3A.velocity +
          (impulseScalar bodyC3A bodyC3B ⟨1, 0, 0⟩ * bodyC3A.invMass) • (⟨1, 0, 0⟩ : Vec3) ∧
      (World.resolveWithInfo bodyC3A bodyC3B ⟨1, 0, 0⟩ (1/2)).2.velocity =
        bodyC3B.velocity -
          (impulseScalar bodyC3A bodyC3B ⟨1, 0, 0⟩ * bodyC3B.invMass) • (⟨1, 0, 0⟩ : Vec3))) := by
  have h1 : 0 ≤ bodyC3A.invMass := by
    rw [show bodyC3A.invMass = 1/2 from by with_unfolding_all rfl]; norm_num
  have h2 : 0 ≤ bodyC3B.invMass := by
    rw [show bodyC3B.invMass = 1 from by with_unfolding_all rfl]; norm_num
  exact ⟨h1, h2, c3_resolve_impulse bodyC3A bodyC3B ⟨1, 0, 0⟩ (1/2) h1 h2⟩

/-- Characterization of the accumulator-draining loop: with fuel `n` it emits
`k ≤ n` full steps of size `ft`, subtracts them from the accumulator, adds `k`
to the sub-step counter, and stops either because the fuel (the
`substep < maxSubSteps` bound) ran out or because the accumulator dropped
below `ft`. -/
theorem updateStepsAux_spec (ft : ℚ) :
    ∀ (n : ℕ) (acc : ℚ) (count : ℕ),
      ∃ k, k ≤ n ∧
        World.updateStepsAux ft n acc count =
          (List.replicate k ft, acc - k * ft, count + k) ∧
        (k = n ∨ acc - k * ft < ft) := by
  intro n
  induction n with
  | zero =>
      intro acc count
      exact ⟨0, le_refl 0, by simp [World.updateStepsAux], Or.inl rfl⟩
  | succ n ih =>
      intro acc count
      by_cases h : acc ≥ ft
      · obtain ⟨k, hk, heq, hor⟩ := ih (acc - ft) (count + 1)
        refine ⟨k + 1, by omega, ?_, ?_⟩
        · unfold World.updateStepsAux
          rw [if_pos h, heq]
          simp only [List.replicate_succ]
          simp only [Prod.mk.injEq]
          refine ⟨trivial, ?_, ?_⟩
          · push_cast; ring
          · omega
        · rcases hor with h1 | h1
          · exact Or.inl (by omega)
          · refine Or.inr ?_
            have : acc - ft - k * ft = acc - (k + 1 : ℕ) * ft := by push_cast; ring
            linarith [this ▸ h1]
      · refine ⟨0, Nat.zero_le _, ?_, Or.inr ?_⟩
        · unfold World.updateStepsAux
          rw [if_neg h]
          simp
        · push_cast
          simp only [zero_mul, sub_zero]
          linarith [not_le.mp h]

/-- C2: for every frame delta and starting accumulator, `update(delta)`
terminates: the loop drains the accumulator in at most `maxSubSteps` full
sub-steps of `fixedTimeStep` each (stopping early once the accumulator is
below `fixedTimeStep`), and if the sub-steps are exhausted with remainder
still positive the remainder is consumed in one final partial sub-step and
the accumulator is zeroed; the total simulated time advanced is at most
`maxSubSteps * fixedTimeStep` plus that one leftover partial step, and
`update` itself clamps the incoming delta to `0.1`, folds `fixedUpdate` over
exactly this schedule and stores the final accumulator. -/
theorem c2_update_schedule (ft : ℚ) (maxN : ℕ) (acc : ℚ) (hft : 0 < ft) :
    ∃ k, k ≤ maxN ∧ (k = maxN ∨ acc - k * ft < ft) ∧
      ((0 < acc - (maxN : ℚ) * ft ∧ k = maxN ∧
          World.updateSteps ft maxN acc = (List.replicate k ft ++ [acc - k * ft], 0)) ∨
        World.updateSteps ft maxN acc = (List.replicate k ft, acc - k * ft)) ∧
      (World.updateSteps ft maxN acc).1.length ≤ maxN + 1 ∧
      (World.updateSteps ft maxN acc).1.sum ≤
        (maxN : ℚ) * ft + max (acc - (maxN : ℚ) * ft) 0 ∧
      (∀ (sqrtF : ℚ → ℚ) (w : World) (δ : ℚ),
        (World.update sqrtF δ w).accumulator =
          (World.updateSteps w.fixedTimeStep w.maxSubSteps
            (w.accumulator + min δ (1/10))).2 ∧
        (World.update sqrtF δ w).bodies =
          ((World.updateSteps w.fixedTimeStep w.maxSubSteps
              (w.accumulator + min δ (1/10))).1.foldl
            (fun wi s => World.fixedUpdate sqrtF s wi) w).bodies) := by
  obtain ⟨k, hk, heq, hor⟩ := updateStepsAux_spec ft maxN acc 0
  have hres : World.updateSteps ft maxN acc =
      (if 0 + k ≥ maxN ∧ acc - k * ft > 0
       then (List.replicate k ft ++ [acc - k * ft], 0)
       else (List.replicate k ft, acc - k * ft)) := by
    unfold World.updateSteps
    rw [heq]
  by_cases hc : 0 + k ≥ maxN ∧ acc - k * ft > 0
  · have hkm : k = maxN := le_antisymm hk (by omega)
    rw [if_pos hc] at hres
    refine ⟨k, hk, hor, Or.inl ⟨by rw [hkm] at hc; exact hc.2, hkm, hres⟩, ?_, ?_, ?_⟩
    · rw [hres]
      simp [hkm]
    · rw [hres]
      have hsum : (List.replicate k ft ++ [acc - k * ft]).sum = k * ft + (acc - k * ft) := by
        simp [List.sum_replicate, nsmul_eq_mul]
      simp only [hsum]
      rw [hkm]
      have := le_max_left (acc - (maxN : ℚ) * ft) 0
      linarith
    · intro sqrtF w δ
      exact ⟨rfl, rfl⟩
  · rw [if_neg hc] at hres
    refine ⟨k, hk, hor, Or.inr hres, ?_, ?_, ?_⟩
    · rw [hres]
      simp only [List.length_replicate]
      omega
    · rw [hres]
      have hsum : (List.replicate k ft).sum = k * ft := by
        simp [List.sum_replicate, nsmul_eq_mul]
      simp only [hsum]
      have h1 : (k : ℚ) * ft ≤ (maxN : ℚ) * ft := by
        have : (k : ℚ) ≤ (maxN : ℚ) := by exact_mod_cast hk
        nlinarith
      have := le_max_right (acc - (maxN : ℚ) * ft) 0
      linarith
    · intro sqrtF w δ
      exact ⟨rfl, rfl⟩

/-- Witness for `c2_update_schedule` at `fixedTimeStep = 1/120`,
`maxSubSteps = 3` and accumulator `1/4` (the final-partial-step case). -/
theorem c2_update_schedule_witness :
    0 < (1/120 : ℚ) ∧
    (∃ k : ℕ, k ≤ 3 ∧ (k = 3 ∨ (1/4 : ℚ) - (k : ℚ) * (1/120) < 1/120) ∧
      ((0 < (1/4 : ℚ) - (3 : ℕ) * (1/120) ∧ k = 3 ∧
          World.updateSteps (1/120) 3 (1/4) =
            (List.replicate k ((1:ℚ)/120) ++ [(1/4 : ℚ) - (k : ℚ) * (1/120)], 0)) ∨
        World.updateSteps (1/120) 3 (1/4) =
          (List.replicate k ((1:ℚ)/120), (1/4 : ℚ) - (k : ℚ) * (1/120))) ∧
      (World.updateSteps (1/120) 3 (1/4)).1.length ≤ 3 + 1 ∧
      (World.updateSteps (1/120) 3 (1/4)).1.sum ≤
        ((3 : ℕ) : ℚ) * (1/120) + max ((1/4 : ℚ) - ((3 : ℕ) : ℚ) * (1/120)) 0 ∧
      (∀ (sqrtF : ℚ → ℚ) (w : World) (δ : ℚ),
        (World.update sqrtF δ w).accumulator =
          (World.updateSteps w.fixedTimeStep w.maxSubSteps
            (w.accumulator + min δ (1/10))).2 ∧
        (World.update sqrtF δ w).bodies =
          ((World.updateSteps w.fixedTimeStep w.maxSubSteps
              (w.accumulator + min δ (1/10))).1.foldl
            (fun wi s => World.fixedUpdate sqrtF s wi) w).bodies)) :=
  ⟨by norm_num, c2_update_schedule (1/120) 3 (1/4) (by norm_num)⟩

/-- C6 (corrected): for sphere colliders A (receiver) and B, `intersects` is
true exactly when `distance(centers) ≤ r1 + r2` (three.js compares squared
distances with `<=`, so exact touching intersects), while `getCollisionInfo`
returns a contact exactly when `distance(centers) < r1 + r2`; in the contact
case the depth is `(r1 + r2) - distance`, the normal points from B to A
(`(pa - pb)/distance` for distinct centers) and the contact point lies on A's
surface along the normal. -/
theorem c6_amended (sqrtF : ℚ → ℚ) (pa pb : Vec3) (r1 r2 : ℚ)
    (hr : 0 ≤ r1 + r2) (hsq : SqrtOk sqrtF (Vec3.distSq pa pb)) :
    (Collider.intersects ⟨pa, .sphere r1⟩ ⟨pb, .sphere r2⟩ = true ↔
      Vec3.distSq pa pb ≤ (r1 + r2) ^ 2) ∧
    ((Collider.getCollisionInfo sqrtF ⟨pa, .sphere r1⟩ ⟨pb, .sphere r2⟩).isSome = true ↔
      Vec3.distSq pa pb < (r1 + r2) ^ 2) ∧
    (∀ info, Collider.getCollisionInfo sqrtF ⟨pa, .sphere r1⟩ ⟨pb, .sphere r2⟩ = some info →
      info.depth = (r1 + r2) - sqrtF (Vec3.distSq pa pb) ∧
      info.normal = Vec3.normalize sqrtF (pa - pb) ∧
      info.point = r1 • info.normal + pa ∧
      (pa ≠ pb →
        info.normal = Vec3.divScalar (pa - pb) (sqrtF (Vec3.distSq pa pb)))) := by
  obtain ⟨hs0, hs2⟩ := hsq
  refine ⟨?_, ?_, ?_⟩
  · unfold Collider.intersects
    rw [Vec3.distSq_comm pb pa]
    simp only [decide_eq_true_eq]
    constructor
    · intro h; nlinarith
    · intro h; nlinarith
  · unfold Collider.getCollisionInfo Collider.sphereSphereInfo
    simp only
    constructor
    · intro h
      by_cases hlt : sqrtF (Vec3.distSq pa pb) < r1 + r2
      · nlinarith
      · rw [if_neg hlt] at h
        simp at h
    · intro h
      have hlt : sqrtF (Vec3.distSq pa pb) < r1 + r2 := by nlinarith
      rw [if_pos hlt]
      rfl
  · intro info hinfo
    unfold Collider.getCollisionInfo Collider.sphereSphereInfo at hinfo
    simp only at hinfo
    by_cases hlt : sqrtF (Vec3.distSq pa pb) < r1 + r2
    · rw [if_pos hlt] at hinfo
      have hinfo' := (Option.some.injEq _ _).mp hinfo
      subst hinfo'
      refine ⟨rfl, rfl, rfl, ?_⟩
      intro hne
      have hd0 : Vec3.distSq pa pb ≠ 0 := by
        intro h0
        apply hne
        have : pa - pb = 0 := (Vec3.lengthSq_eq_zero_iff _).mp h0
        cases pa; cases pb
        simp only [Vec3.sub_def, Vec3.zero_def, Vec3.mk.injEq] at this
        simp only [Vec3.mk.injEq]
        constructor
        · linarith [this.1]
        constructor
        · linarith [this.2.1]
        · linarith [this.2.2]
      have hs : sqrtF (Vec3.distSq pa pb) ≠ 0 := by
        intro h0
        rw [h0] at hs2
        exact hd0 (by linarith)
      simp only [Vec3.normalize]
      have hds : Vec3.lengthSq (pa - pb) = Vec3.distSq pa pb := rfl
      rw [hds, if_neg hs]
    · rw [if_neg hlt] at hinfo
      exact absurd hinfo (by simp)

/-- C6 counterexample: two unit spheres whose centers are exactly `2` apart
(squared distance `4 = (1+1)^2`, so `distance < r1+r2` is false) still report
`intersects = true`, while `getCollisionInfo` reports no contact — refuting
the claim that `intersects` is true exactly when `distance < r1 + r2`. -/
theorem c6_counterexample :
    Collider.intersects ⟨⟨0, 0, 0⟩, .sphere 1⟩ ⟨⟨2, 0, 0⟩, .sphere 1⟩ = true ∧
    Vec3.distSq ⟨0, 0, 0⟩ ⟨2, 0, 0⟩ = (1 + 1) ^ 2 ∧
    Collider.getCollisionInfo sqrt0 ⟨⟨0, 0, 0⟩, .sphere 1⟩ ⟨⟨2, 0, 0⟩, .sphere 1⟩ =
      none := by
  refine ⟨?_, ?_, ?_⟩
  · with_unfolding_all rfl
  · with_unfolding_all rfl
  · with_unfolding_all rfl

/-- Witness for `c6_amended`: unit spheres `1.5` apart (the spec's concrete
example), with `sqrt0` exact at the squared distance `9/4`; the final
conjuncts exhibit the concrete contact: `intersects = true` and
`depth = 1/2`. -/
theorem c6_amended_witness :
    0 ≤ (1 : ℚ) + 1 ∧
    SqrtOk sqrt0 (Vec3.distSq ⟨0, 0, 0⟩ ⟨3/2, 0, 0⟩) ∧
    ((Collider.intersects ⟨⟨0, 0, 0⟩, .sphere 1⟩ ⟨⟨3/2, 0, 0⟩, .sphere 1⟩ = true ↔
      Vec3.distSq ⟨0, 0, 0⟩ ⟨3/2, 0, 0⟩ ≤ ((1 : ℚ) + 1) ^ 2) ∧
    ((Collider.getCollisionInfo sqrt0 ⟨⟨0, 0, 0⟩, .sphere 1⟩
        ⟨⟨3/2, 0, 0⟩, .sphere 1⟩).isSome = true ↔
      Vec3.distSq ⟨0, 0, 0⟩ ⟨3/2, 0, 0⟩ < ((1 : ℚ) + 1) ^ 2) ∧
    (∀ info, Collider.getCollisionInfo sqrt0 ⟨⟨0, 0, 0⟩, .sphere 1⟩
        ⟨⟨3/2, 0, 0⟩, .sphere 1⟩ = some info →
      info.depth = ((1 : ℚ) + 1) - sqrt0 (Vec3.distSq ⟨0, 0, 0⟩ ⟨3/2, 0, 0⟩) ∧
      info.normal = Vec3.normalize sqrt0 ((⟨0, 0, 0⟩ : Vec3) - ⟨3/2, 0, 0⟩) ∧
      info.point = (1 : ℚ) • info.normal + ⟨0, 0, 0⟩ ∧
      ((⟨0, 0, 0⟩ : Vec3) ≠ ⟨3/2, 0, 0⟩ →
        info.normal = Vec3.divScalar ((⟨0, 0, 0⟩ : Vec3) - ⟨3/2, 0, 0⟩)
          (sqrt0 (Vec3.distSq ⟨0, 0, 0⟩ ⟨3/2, 0, 0⟩))))) ∧
    Collider.intersects ⟨⟨0, 0, 0⟩, .sphere 1⟩ ⟨⟨3/2, 0, 0⟩, .sphere 1⟩ = true ∧
    Collider.getCollisionInfo sqrt0 ⟨⟨0, 0, 0⟩, .sphere 1⟩ ⟨⟨3/2, 0, 0⟩, .sphere 1⟩ =
      some ⟨⟨-1, 0, 0⟩, 1/2, ⟨-1, 0, 0⟩⟩ := by
  have hr : 0 ≤ (1 : ℚ) + 1 := by norm_num
  have hsq : SqrtOk sqrt0 (Vec3.distSq ⟨0, 0, 0⟩ ⟨3/2, 0, 0⟩) := by
    constructor
    · rw [show sqrt0 (Vec3.distSq ⟨0, 0, 0⟩ ⟨3/2, 0, 0⟩) = 3/2 from by
        with_unfolding_all rfl]
      norm_num
    · rw [show sqrt0 (Vec3.distSq ⟨0, 0, 0⟩ ⟨3/2, 0, 0⟩) = 3/2 from by
        with_unfolding_all rfl]
      with_unfolding_all rfl
  refine ⟨hr, hsq, c6_amended sqrt0 ⟨0, 0, 0⟩ ⟨3/2, 0, 0⟩ 1 1 hr hsq, ?_, ?_⟩
  · with_unfolding_all rfl
  · with_unfolding_all rfl

/-- C7: for axis-aligned box colliders A (receiver) and B (with nonnegative
half-extents), `getCollisionInfo` performs a separating-axis test along the 3
world axes only: it returns `none` exactly when some axis has non-positive
projected-interval overlap, and otherwise returns the axis of minimum positive
overlap (first axis in X,Y,Z order on ties, matching the strict `<` update) as
the normal, oriented from A to B by the sign of the center-to-center
displacement along that axis (`orientAxis`), with depth equal to that minimum
positive overlap and the contact point at the midpoint of the centers. -/
theorem c7_box_box_sat (sqrtF : ℚ → ℚ) (pa ha pb hb : Vec3)
    (hax : 0 ≤ ha.x) (hay : 0 ≤ ha.y) (haz : 0 ≤ ha.z)
    (hbx : 0 ≤ hb.x) (hby : 0 ≤ hb.y) (hbz : 0 ≤ hb.z) :
    (Collider.getCollisionInfo sqrtF ⟨pa, .box ha⟩ ⟨pb, .box hb⟩ = none ↔
      Collider.axisOverlap pa ha pb hb ⟨1, 0, 0⟩ ≤ 0 ∨
      Collider.axisOverlap pa ha pb hb ⟨0, 1, 0⟩ ≤ 0 ∨
      Collider.axisOverlap pa ha pb hb ⟨0, 0, 1⟩ ≤ 0) ∧
    (∀ info, Collider.getCollisionInfo sqrtF ⟨pa, .box ha⟩ ⟨pb, .box hb⟩ = some info →
      info.depth = min (Collider.axisOverlap pa ha pb hb ⟨1, 0, 0⟩)
          (min (Collider.axisOverlap pa ha pb hb ⟨0, 1, 0⟩)
            (Collider.axisOverlap pa ha pb hb ⟨0, 0, 1⟩)) ∧
      0 < info.depth ∧
      info.normal =
        (if Collider.axisOverlap pa ha pb hb ⟨0, 0, 1⟩ <
              min (Collider.axisOverlap pa ha pb hb ⟨1, 0, 0⟩)
                (Collider.axisOverlap pa ha pb hb ⟨0, 1, 0⟩) then
            Collider.orientAxis pa pb ⟨0, 0, 1⟩
          else if Collider.axisOverlap pa ha pb hb ⟨0, 1, 0⟩ <
              Collider.axisOverlap pa ha pb hb ⟨1, 0, 0⟩ then
            Collider.orientAxis pa pb ⟨0, 1, 0⟩
          else Collider.orientAxis pa pb ⟨1, 0, 0⟩) ∧
      info.point = (1 / 2 : ℚ) • (pa + pb)) := by
  set o1 := Collider.axisOverlap pa ha pb hb ⟨1, 0, 0⟩ with ho1def
  set o2 := Collider.axisOverlap pa ha pb hb ⟨0, 1, 0⟩ with ho2def
  set o3 := Collider.axisOverlap pa ha pb hb ⟨0, 0, 1⟩ with ho3def
  have hox : o1 =
      min (pa.x + ha.x) (pb.x + hb.x) - max (pa.x - ha.x) (pb.x - hb.x) := by
    rw [ho1def]
    unfold Collider.axisOverlap Collider.projectOntoAxis
    simp [Vec3.dot, abs_of_nonneg, hax, hbx]
  have hoy : o2 =
      min (pa.y + ha.y) (pb.y + hb.y) - max (pa.y - ha.y) (pb.y - hb.y) := by
    rw [ho2def]
    unfold Collider.axisOverlap Collider.projectOntoAxis
    simp [Vec3.dot, abs_of_nonneg, hay, hby]
  have hoz : o3 =
      min (pa.z + ha.z) (pb.z + hb.z) - max (pa.z - ha.z) (pb.z - hb.z) := by
    rw [ho3def]
    unfold Collider.axisOverlap Collider.projectOntoAxis
    simp [Vec3.dot, abs_of_nonneg, haz, hbz]
  have hbb : Collider.boxIntersectsBox pa ha pb hb = true ↔
      0 ≤ o1 ∧ 0 ≤ o2 ∧ 0 ≤ o3 := by
    unfold Collider.boxIntersectsBox
    rw [hox, hoy, hoz]
    simp only [Bool.and_eq_true, decide_eq_true_eq, Vec3.add_def, Vec3.sub_def]
    constructor
    · rintro ⟨⟨⟨⟨⟨h1, h2⟩, h3⟩, h4⟩, h5⟩, h6⟩
      refine ⟨?_, ?_, ?_⟩ <;>
        · rw [sub_nonneg, le_min_iff]
          constructor <;> rw [max_le_iff] <;> constructor <;> linarith
    · rintro ⟨h1, h2, h3⟩
      rw [sub_nonneg] at h1 h2 h3
      have e1 := le_trans (le_max_left (pa.x - ha.x) (pb.x - hb.x))
        (le_trans h1 (min_le_right _ _))
      have e2 := le_trans (le_max_right (pa.x - ha.x) (pb.x - hb.x))
        (le_trans h1 (min_le_left _ _))
      have e3 := le_trans (le_max_left (pa.y - ha.y) (pb.y - hb.y))
        (le_trans h2 (min_le_right _ _))
      have e4 := le_trans (le_max_right (pa.y - ha.y) (pb.y - hb.y))
        (le_trans h2 (min_le_left _ _))
      have e5 := le_trans (le_max_left (pa.z - ha.z) (pb.z - hb.z))
        (le_trans h3 (min_le_right _ _))
      have e6 := le_trans (le_max_right (pa.z - ha.z) (pb.z - hb.z))
        (le_trans h3 (min_le_left _ _))
      refine ⟨⟨⟨⟨⟨?_, ?_⟩, ?_⟩, ?_⟩, ?_⟩, ?_⟩ <;> linarith
  have hmin12 : (if o2 < o1 then o2 else o1) = min o1 o2 := by
    split_ifs with h
    · exact (min_eq_right (le_of_lt h)).symm
    · exact (min_eq_left (not_lt.mp h)).symm
  constructor
  · unfold Collider.getCollisionInfo Collider.boxBoxInfo
    simp only
    constructor
    · intro hres
      by_contra hcon
      push_neg at hcon
      obtain ⟨h1, h2, h3⟩ := hcon
      have hi : Collider.boxIntersectsBox pa ha pb hb = true :=
        hbb.mpr ⟨le_of_lt h1, le_of_lt h2, le_of_lt h3⟩
      rw [if_pos hi, if_neg (not_le.mpr h1), if_neg (not_le.mpr h2),
        if_neg (not_le.mpr h3)] at hres
      exact absurd hres (by simp)
    · intro hle
      by_cases hi : Collider.boxIntersectsBox pa ha pb hb = true
      · rw [if_pos hi]
        rcases hle with h | h | h
        · rw [if_pos h]
        · by_cases h1 : o1 ≤ 0
          · rw [if_pos h1]
          · rw [if_neg h1, if_pos h]
        · by_cases h1 : o1 ≤ 0
          · rw [if_pos h1]
          · rw [if_neg h1]
            by_cases h2 : o2 ≤ 0
            · rw [if_pos h2]
            · rw [if_neg h2, if_pos h]
      · rw [if_neg hi]
  · intro info hinfo
    unfold Collider.getCollisionInfo Collider.boxBoxInfo at hinfo
    simp only at hinfo
    by_cases hi : Collider.boxIntersectsBox pa ha pb hb = true
    swap
    · rw [if_neg hi] at hinfo; exact absurd hinfo (by simp)
    rw [if_pos hi] at hinfo
    by_cases h1 : o1 ≤ 0
    · rw [if_pos h1] at hinfo; exact absurd hinfo (by simp)
    rw [if_neg h1] at hinfo
    by_cases h2 : o2 ≤ 0
    · rw [if_pos h2] at hinfo; exact absurd hinfo (by simp)
    rw [if_neg h2] at hinfo
    by_cases h3 : o3 ≤ 0
    · rw [if_pos h3] at hinfo; exact absurd hinfo (by simp)
    rw [if_neg h3] at hinfo
    push_neg at h1 h2 h3
    rw [hmin12] at hinfo
    have hinfo' := (Option.some.injEq _ _).mp hinfo
    subst hinfo'
    refine ⟨?_, ?_, ?_, rfl⟩
    · simp only
      rw [← min_assoc]
      split_ifs with hc
      · exact (min_eq_right (le_of_lt hc)).symm
      · exact (min_eq_left (not_lt.mp hc)).symm
    · simp only
      split_ifs with hc
      · exact h3
      · exact lt_min h1 h2
    · rfl

/-- Witness for `c7_box_box_sat`: the spec's concrete example — two boxes with
half-extents `(1,1,1)` centered `1.5` apart on the X axis overlap with depth
`0.5` along the X axis (normal `(1,0,0)` since B lies in the `+x` direction). -/
theorem c7_box_box_sat_witness :
    (0 ≤ (1 : ℚ) ∧ 0 ≤ (1 : ℚ) ∧ 0 ≤ (1 : ℚ)) ∧
    ((Collider.getCollisionInfo sqrt0 ⟨⟨0, 0, 0⟩, .box ⟨1, 1, 1⟩⟩
        ⟨⟨3/2, 0, 0⟩, .box ⟨1, 1, 1⟩⟩ = none ↔
      Collider.axisOverlap ⟨0, 0, 0⟩ ⟨1, 1, 1⟩ ⟨3/2, 0, 0⟩ ⟨1, 1, 1⟩ ⟨1, 0, 0⟩ ≤ 0 ∨
      Collider.axisOverlap ⟨0, 0, 0⟩ ⟨1, 1, 1⟩ ⟨3/2, 0, 0⟩ ⟨1, 1, 1⟩ ⟨0, 1, 0⟩ ≤ 0 ∨
      Collider.axisOverlap ⟨0, 0, 0⟩ ⟨1, 1, 1⟩ ⟨3/2, 0, 0⟩ ⟨1, 1, 1⟩ ⟨0, 0, 1⟩ ≤ 0) ∧
    (∀ info, Collider.getCollisionInfo sqrt0 ⟨⟨0, 0, 0⟩, .box ⟨1, 1, 1⟩⟩
        ⟨⟨3/2, 0, 0⟩, .box ⟨1, 1, 1⟩⟩ = some info →
      info.depth = min (Collider.axisOverlap ⟨0, 0, 0⟩ ⟨1, 1, 1⟩ ⟨3/2, 0, 0⟩ ⟨1, 1, 1⟩ ⟨1, 0, 0⟩)
          (min (Collider.axisOverlap ⟨0, 0, 0⟩ ⟨1, 1, 1⟩ ⟨3/2, 0, 0⟩ ⟨1, 1, 1⟩ ⟨0, 1, 0⟩)
            (Collider.axisOverlap ⟨0, 0, 0⟩ ⟨1, 1, 1⟩ ⟨3/2, 0, 0⟩ ⟨1, 1, 1⟩ ⟨0, 0, 1⟩)) ∧
      0 < info.depth ∧
      info.normal =
        (if Collider.axisOverlap ⟨0, 0, 0⟩ ⟨1, 1, 1⟩ ⟨3/2, 0, 0⟩ ⟨1, 1, 1⟩ ⟨0, 0, 1⟩ <
              min (Collider.axisOverlap ⟨0, 0, 0⟩ ⟨1, 1, 1⟩ ⟨3/2, 0, 0⟩ ⟨1, 1, 1⟩ ⟨1, 0, 0⟩)
                (Collider.axisOverlap ⟨0, 0, 0⟩ ⟨1, 1, 1⟩ ⟨3/2, 0, 0⟩ ⟨1, 1, 1⟩ ⟨0, 1, 0⟩) then
            Collider.orientAxis ⟨0, 0, 0⟩ ⟨3/2, 0, 0⟩ ⟨0, 0, 1⟩
          else if Collider.axisOverlap ⟨0, 0, 0⟩ ⟨1, 1, 1⟩ ⟨3/2, 0, 0⟩ ⟨1, 1, 1⟩ ⟨0, 1, 0⟩ <
              Collider.axisOverlap ⟨0, 0, 0⟩ ⟨1, 1, 1⟩ ⟨3/2, 0, 0⟩ ⟨1, 1, 1⟩ ⟨1, 0, 0⟩ then
            Collider.orientAxis ⟨0, 0, 0⟩ ⟨3/2, 0, 0⟩ ⟨0, 1, 0⟩
          else Collider.orientAxis ⟨0, 0, 0⟩ ⟨3/2, 0, 0⟩ ⟨1, 0, 0⟩) ∧
      info.point = (1 / 2 : ℚ) • ((⟨0, 0, 0⟩ : Vec3) + ⟨3/2, 0, 0⟩))) ∧
    Collider.getCollisionInfo sqrt0 ⟨⟨0, 0, 0⟩, .box ⟨1, 1, 1⟩⟩
        ⟨⟨3/2, 0, 0⟩, .box ⟨1, 1, 1⟩⟩ =
      some ⟨⟨1, 0, 0⟩, 1/2, ⟨3/4, 0, 0⟩⟩ := by
  refine ⟨⟨by norm_num, by norm_num, by norm_num⟩, ?_, ?_⟩
  · exact c7_box_box_sat sqrt0 ⟨0, 0, 0⟩ ⟨1, 1, 1⟩ ⟨3/2, 0, 0⟩ ⟨1, 1, 1⟩
      (by norm_num) (by norm_num) (by norm_num) (by norm_num) (by norm_num) (by norm_num)
  · with_unfolding_all rfl

/-- The mass signature of a body: the pair of fields `(invMass, isStatic)`
that the static/dynamic invariants are about. -/
def massSig (b : Body) : ℚ × Bool := (b.invMass, b.isStatic)

theorem massSig_applyForce (b : Body) (f : Vec3) : massSig (b.applyForce f) = massSig b := by
  unfold Body.applyForce; split_ifs <;> rfl

theorem massSig_applyImpulse (b : Body) (j : Vec3) :
    massSig (b.applyImpulse j) = massSig b := by
  unfold Body.applyImpulse; split_ifs <;> rfl

theorem massSig_integrateForces (dt : ℚ) (b : Body) :
    massSig (Body.integrateForces dt b) = massSig b := by
  unfold Body.integrateForces; split_ifs <;> rfl

theorem massSig_stabilize (sqrtF : ℚ → ℚ) (b : Body) :
    massSig (Body.stabilize sqrtF b) = massSig b := rfl

theorem massSig_integrateVelocity (sqrtF : ℚ → ℚ) (dt : ℚ) (b : Body) :
    massSig (Body.integrateVelocity sqrtF dt b) = massSig b := by
  unfold Body.integrateVelocity; split_ifs <;> rfl

theorem massSig_planetSafetyCheck (sqrtF : ℚ → ℚ) (p : Planet) (b : Body) :
    massSig (World.planetSafetyCheck sqrtF p b) = massSig b := by
  simp only [World.planetSafetyCheck]; split_ifs <;> rfl

theorem massSig_applyGravitationalForce (sqrtF : ℚ → ℚ) (p : Planet) (b : Body) :
    massSig (p.applyGravitationalForce sqrtF b) = massSig b := by
  unfold Planet.applyGravitationalForce
  split_ifs
  · rfl
  · exact massSig_applyForce _ _

theorem massSig_gravityPhaseBody (sqrtF : ℚ → ℚ) (dt : ℚ) (w : World) (b : Body) :
    massSig (World.gravityPhaseBody sqrtF dt w b) = massSig b := by
  cases hw : w.planetBody with
  | none =>
      simp only [World.gravityPhaseBody, massSig_integrateForces, hw]
      split_ifs <;> simp [massSig_applyForce]
  | some p =>
      simp only [World.gravityPhaseBody, massSig_integrateForces, hw]
      split_ifs <;> simp [massSig_applyGravitationalForce]

theorem massSig_surfaceTeleportStep (sqrtF : ℚ → ℚ) (p : Planet) (fc : Vec3)
    (distance : ℚ) (b : Body) :
    massSig (Planet.surfaceTeleportStep sqrtF p fc distance b).1 = massSig b := by
  simp only [Planet.surfaceTeleportStep]; split_ifs <;> rfl

theorem massSig_surfaceGroundStep (radialDir : Vec3) (b : Body) :
    massSig (Planet.surfaceGroundStep radialDir b) = massSig b := by
  simp only [Planet.surfaceGroundStep]; split_ifs <;> rfl

theorem massSig_setOnGround (b : Body) (g : Bool) :
    massSig (b.setOnGround g) = massSig b := rfl

theorem massSig_surfaceInteraction (sqrtF : ℚ → ℚ) (p : Planet) (dt : ℚ) (b : Body) :
    massSig (p.handlePlanetSurfaceInteraction sqrtF dt b) = massSig b := by
  simp only [Planet.handlePlanetSurfaceInteraction]
  split_ifs with hg hp hj
  · rfl
  · rw [massSig_surfaceGroundStep, massSig_applyForce, massSig_setOnGround]
    exact massSig_surfaceTeleportStep _ _ _ _ _
  · rw [massSig_surfaceGroundStep, massSig_applyForce, massSig_setOnGround]
    exact massSig_surfaceTeleportStep _ _ _ _ _
  · rw [massSig_surfaceGroundStep, massSig_setOnGround]
    exact massSig_surfaceTeleportStep _ _ _ _ _

theorem massSig_checkWorldBounds (w : World) (b : Body) :
    massSig (World.checkWorldBounds w b) = massSig b := by
  simp only [World.checkWorldBounds]; split_ifs <;> rfl

theorem massSig_resolveWithInfo (a b : Body) (normal : Vec3) (depth : ℚ) :
    massSig (World.resolveWithInfo a b normal depth).1 = massSig a ∧
    massSig (World.resolveWithInfo a b normal depth).2 = massSig b := by
  simp only [World.resolveWithInfo]; split_ifs <;> exact ⟨rfl, rfl⟩

theorem massSig_resolveFallback (sqrtF : ℚ → ℚ) (a b : Body) :
    massSig (World.resolveFallback sqrtF a b).1 = massSig a ∧
    massSig (World.resolveFallback sqrtF a b).2 = massSig b := by
  simp only [World.resolveFallback]; split_ifs <;> exact ⟨rfl, rfl⟩

theorem massSig_resolveCollision (sqrtF : ℚ → ℚ) (a b : Body) :
    massSig (World.resolveCollision sqrtF a b).1 = massSig a ∧
    massSig (World.resolveCollision sqrtF a b).2 = massSig b := by
  unfold World.resolveCollision
  cases h1 : Body.checkCollision sqrtF a b with
  | some i => exact massSig_resolveWithInfo a b i.normal i.depth
  | none =>
      cases h2 : Body.checkCollision sqrtF b a with
      | some i =>
          simp only
          exact massSig_resolveWithInfo a b _ _
      | none => exact massSig_resolveFallback sqrtF a b

theorem foldl_preserve {σ : Type _} {α : Type _} (P : σ → Prop) (f : σ → α → σ)
    (hstep : ∀ s a, P s → P (f s a)) :
    ∀ (l : List α) (s : σ), P s → P (l.foldl f s) := by
  intro l
  induction l with
  | nil => intro s hs; simpa using hs
  | cons hd tl ih =>
      intro s hs
      simpa using ih (f s hd) (hstep s hd hs)

theorem getD_set_eq {α : Type _} [Inhabited α] :
    ∀ (l : List α) (i j : ℕ) (v : α),
      (l.set i v).getD j default =
        if i = j ∧ i < l.length then v else l.getD j default := by
  intro l
  induction l with
  | nil => intro i j v; simp
  | cons hd tl ih =>
      intro i j v
      cases i with
      | zero =>
          cases j with
          | zero => simp
          | succ m => simp
      | succ n =>
          cases j with
          | zero => simp
          | succ m =>
              rw [show (hd :: tl).set (n + 1) v = hd :: tl.set n v from rfl]
              simp only [List.getD_cons_succ, List.length_cons, ih]
              by_cases h : n = m ∧ n < tl.length
              · rw [if_pos h, if_pos (by omega)]
              · rw [if_neg h, if_neg (by omega)]

theorem set_getD_self {α : Type _} [Inhabited α] :
    ∀ (l : List α) (i : ℕ), l.set i (l.getD i default) = l := by
  intro l
  induction l with
  | nil => intro i; simp
  | cons hd tl ih =>
      intro i
      cases i with
      | zero => simp
      | succ n =>
          rw [List.getD_cons_succ,
            show (hd :: tl).set (n + 1) (tl.getD n default) = hd :: tl.set n (tl.getD n default)
              from rfl, ih]

theorem map_set_sig {α : Type _} {β : Type _} [Inhabited α] (f : α → β) :
    ∀ (l : List α) (i : ℕ) (v : α), f v = f (l.getD i default) →
      (l.set i v).map f = l.map f := by
  intro l
  induction l with
  | nil => intro i v _; simp
  | cons hd tl ih =>
      intro i v h
      cases i with
      | zero => simp_all
      | succ n =>
          rw [show (hd :: tl).set (n + 1) v = hd :: tl.set n v from rfl]
          simp only [List.map_cons]
          rw [ih n v (by simpa using h)]

theorem map_sig_pairStepDyn (sqrtF : ℚ → ℚ) (d : List Body) (i j : ℕ) :
    (World.pairStepDyn sqrtF d i j).map massSig = d.map massSig := by
  simp only [World.pairStepDyn]
  split_ifs with hc
  · have h1 := (massSig_resolveCollision sqrtF (d.getD i default) (d.getD j default)).1
    have h2 := (massSig_resolveCollision sqrtF (d.getD i default) (d.getD j default)).2
    have hj : massSig (World.resolveCollision sqrtF (d.getD i default) (d.getD j default)).2
        = massSig ((d.set i
            (World.resolveCollision sqrtF (d.getD i default) (d.getD j default)).1).getD j
            default) := by
      rw [getD_set_eq]
      by_cases hij : i = j ∧ i < d.length
      · rw [if_pos hij, h2, h1, hij.1]
      · rw [if_neg hij]; exact h2
    rw [map_set_sig massSig _ j _ hj, map_set_sig massSig d i _ h1]
  · rfl

theorem map_sig_pairStepStatic (sqrtF : ℚ → ℚ) (ds : List Body × List Body) (i k : ℕ) :
    (World.pairStepStatic sqrtF ds i k).1.map massSig = ds.1.map massSig ∧
    (World.pairStepStatic sqrtF ds i k).2.map massSig = ds.2.map massSig := by
  simp only [World.pairStepStatic]
  split_ifs with hp hc
  · exact ⟨rfl, rfl⟩
  · constructor
    · exact map_set_sig massSig ds.1 i _
        (massSig_resolveCollision sqrtF (ds.1.getD i default) (ds.2.getD k default)).1
    · exact map_set_sig massSig ds.2 k _
        (massSig_resolveCollision sqrtF (ds.1.getD i default) (ds.2.getD k default)).2
  · exact ⟨rfl, rfl⟩

theorem map_sig_detectCollisions (sqrtF : ℚ → ℚ) (dyn stat : List Body) :
    (World.detectCollisions sqrtF dyn stat).1.map massSig = dyn.map massSig ∧
    (World.detectCollisions sqrtF dyn stat).2.map massSig = stat.map massSig := by
  unfold World.detectCollisions
  refine foldl_preserve
    (fun ds : List Body × List Body =>
      ds.1.map massSig = dyn.map massSig ∧ ds.2.map massSig = stat.map massSig)
    _ ?_ _ _ ⟨rfl, rfl⟩
  intro ds i hds
  dsimp only
  have hd1 : ((List.range' (i + 1) (dyn.length - (i + 1))).foldl
      (fun d j => World.pairStepDyn sqrtF d i j) ds.1).map massSig = dyn.map massSig := by
    refine foldl_preserve (fun d : List Body => d.map massSig = dyn.map massSig) _ ?_ _ _ hds.1
    intro d j hd
    dsimp only
    rw [map_sig_pairStepDyn, hd]
  refine foldl_preserve
    (fun p : List Body × List Body =>
      p.1.map massSig = dyn.map massSig ∧ p.2.map massSig = stat.map massSig)
    _ ?_ _ _ ⟨hd1, hds.2⟩
  intro p k hp
  dsimp only
  have h := map_sig_pairStepStatic sqrtF p i k
  exact ⟨h.1.trans hp.1, h.2.trans hp.2⟩

theorem map_sig_map (g : Body → Body) (hg : ∀ b, massSig (g b) = massSig b)
    (l : List Body) : (l.map g).map massSig = l.map massSig := by
  rw [List.map_map]
  exact List.map_congr_left (fun a _ => hg a)

theorem map_sig_fixedUpdate (sqrtF : ℚ → ℚ) (dt : ℚ) (w : World) :
    (World.fixedUpdate sqrtF dt w).bodies.map massSig = w.bodies.map massSig ∧
    (World.fixedUpdate sqrtF dt w).staticBodies.map massSig =
      w.staticBodies.map massSig := by
  cases hw : w.planetBody with
  | none =>
      simp only [World.fixedUpdate, hw, Option.isSome_none, Bool.false_eq_true, if_false]
      constructor
      · rw [map_sig_map _ (fun b => massSig_checkWorldBounds w b),
          (map_sig_detectCollisions sqrtF _ _).1,
          map_sig_map _ (fun b => massSig_gravityPhaseBody sqrtF dt w b),
          map_sig_map _ (fun b => massSig_integrateVelocity sqrtF dt b)]
      · rw [(map_sig_detectCollisions sqrtF _ _).2]
  | some p =>
      simp only [World.fixedUpdate, hw, Option.isSome_some, if_true]
      constructor
      · rw [(map_sig_detectCollisions sqrtF _ _).1,
          map_sig_map _ (fun b => massSig_surfaceInteraction sqrtF p dt b),
          map_sig_map _ (fun b => massSig_gravityPhaseBody sqrtF dt w b),
          map_sig_map _ (fun b => massSig_integrateVelocity sqrtF dt b),
          map_sig_map _ (fun b => massSig_planetSafetyCheck sqrtF p b)]
      · rw [(map_sig_detectCollisions sqrtF _ _).2]

theorem map_sig_update (sqrtF : ℚ → ℚ) (δ : ℚ) (w : World) :
    (World.update sqrtF δ w).bodies.map massSig = w.bodies.map massSig ∧
    (World.update sqrtF δ w).staticBodies.map massSig =
      w.staticBodies.map massSig := by
  unfold World.update
  dsimp only
  exact foldl_preserve
    (fun wi => wi.bodies.map massSig = w.bodies.map massSig ∧
      wi.staticBodies.map massSig = w.staticBodies.map massSig)
    (fun wi s => World.fixedUpdate sqrtF s wi)
    (fun wi s hwi =>
      ⟨(map_sig_fixedUpdate sqrtF s wi).1.trans hwi.1,
        (map_sig_fixedUpdate sqrtF s wi).2.trans hwi.2⟩)
    _ w ⟨rfl, rfl⟩

theorem mkBody_static_invMass (o : BodyOptions) (ho : (mkBody o).isStatic = true) :
    (mkBody o).invMass = 0 := by
  have ho' : o.isStatic.getD false = true := ho
  show (if o.isStatic.getD false = true then (0 : ℚ)
        else if o.mass.getD 1 > 0 then 1 / o.mass.getD 1 else 0) = 0
  rw [if_pos ho']

theorem mkBody_invMass_iff (o : BodyOptions) (hm : 0 < o.mass.getD 1) :
    ((mkBody o).invMass = 0 ↔ (mkBody o).isStatic = true) := by
  show (if o.isStatic.getD false = true then (0 : ℚ)
        else if o.mass.getD 1 > 0 then 1 / o.mass.getD 1 else 0) = 0 ↔
    o.isStatic.getD false = true
  by_cases hS : o.isStatic.getD false = true
  · rw [if_pos hS]
    simp [hS]
  · rw [if_neg hS, if_pos hm]
    constructor
    · intro h; exact absurd h (one_div_ne_zero (ne_of_gt hm))
    · intro h; exact absurd h hS

theorem resolveWithInfo_static_snd (a b : Body) (normal : Vec3) (depth : ℚ)
    (hb : b.invMass = 0) : (World.resolveWithInfo a b normal depth).2 = b := by
  simp only [World.resolveWithInfo, jsOrQ_zero, hb]
  split_ifs <;> first | rfl | (exact absurd (by assumption) (lt_irrefl (0 : ℚ)))

theorem resolveFallback_static_snd (sqrtF : ℚ → ℚ) (a b : Body)
    (hb : b.invMass = 0) : (World.resolveFallback sqrtF a b).2 = b := by
  simp only [World.resolveFallback, jsOrQ_zero, hb]
  split_ifs <;> first | rfl | (exact absurd (by assumption) (lt_irrefl (0 : ℚ)))

theorem resolveCollision_static_snd (sqrtF : ℚ → ℚ) (a b : Body)
    (hb : b.invMass = 0) : (World.resolveCollision sqrtF a b).2 = b := by
  unfold World.resolveCollision
  cases h1 : Body.checkCollision sqrtF a b with
  | some i => exact resolveWithInfo_static_snd a b i.normal i.depth hb
  | none =>
      cases h2 : Body.checkCollision sqrtF b a with
      | some i =>
          simp only
          exact resolveWithInfo_static_snd a b _ _ hb
      | none => exact resolveFallback_static_snd sqrtF a b hb

theorem pairStepStatic_stat (sqrtF : ℚ → ℚ) (ds : List Body × List Body) (i k : ℕ)
    (hstat : ∀ b ∈ ds.2, b.invMass = 0) :
    (World.pairStepStatic sqrtF ds i k).2 = ds.2 := by
  simp only [World.pairStepStatic]
  split_ifs with hp hc
  · rfl
  · by_cases hk : k < ds.2.length
    · have hmem : ds.2.getD k default ∈ ds.2 := by
        rw [List.getD_eq_getElem ds.2 default hk]
        exact List.getElem_mem hk
      rw [resolveCollision_static_snd _ _ _ (hstat _ hmem), set_getD_self]
    · have hle : ds.2.length ≤ k := by omega
      rw [List.set_eq_of_length_le hle]
  · rfl

theorem detectCollisions_stat (sqrtF : ℚ → ℚ) (dyn stat : List Body)
    (hstat : ∀ b ∈ stat, b.invMass = 0) :
    (World.detectCollisions sqrtF dyn stat).2 = stat := by
  unfold World.detectCollisions
  refine foldl_preserve (fun ds : List Body × List Body => ds.2 = stat) _ ?_ _ _ rfl
  intro ds i hds
  dsimp only
  refine foldl_preserve (fun p : List Body × List Body => p.2 = stat) _ ?_ _ _ hds
  intro p k hp
  dsimp only
  rw [pairStepStatic_stat sqrtF p i k (by rw [hp]; exact hstat), hp]

theorem fixedUpdate_stat (sqrtF : ℚ → ℚ) (dt : ℚ) (w : World)
    (hstat : ∀ b ∈ w.staticBodies, b.invMass = 0) :
    (World.fixedUpdate sqrtF dt w).staticBodies = w.staticBodies := by
  unfold World.fixedUpdate
  dsimp only
  exact detectCollisions_stat sqrtF _ _ hstat

theorem update_stat (sqrtF : ℚ → ℚ) (δ : ℚ) (w : World)
    (hstat : ∀ b ∈ w.staticBodies, b.invMass = 0) :
    (World.update sqrtF δ w).staticBodies = w.staticBodies := by
  unfold World.update
  dsimp only
  exact foldl_preserve (fun wi : World => wi.staticBodies = w.staticBodies) _
    (fun wi s hwi =>
      (fixedUpdate_stat sqrtF s wi (by rw [hwi]; exact hstat)).trans hwi) _ w rfl

/-- C4: every body constructed with `isStatic = true` (in particular every
`StaticBody`) has `inverseMass = 0`; `addBody` routes a body into
`staticBodies` exactly when `isStatic` holds; and for a world whose static
bodies all have `inverseMass = 0`, any number of `update()` calls leaves the
static body list — hence every static body's position and velocity — exactly
unchanged: integration, gravity, planet surface interaction and collision
resolution (impulse and positional correction) never touch them. -/
theorem c4_static_bodies :
    (∀ o : BodyOptions, (mkBody o).isStatic = true → (mkBody o).invMass = 0) ∧
    (∀ o : BodyOptions, (mkStaticBody o).isStatic = true ∧ (mkStaticBody o).invMass = 0) ∧
    (∀ (w : World) (b : Body), (World.addBody w b).staticBodies =
      (if b.isStatic then w.staticBodies ++ [b] else w.staticBodies)) ∧
    (∀ (sqrtF : ℚ → ℚ) (deltas : List ℚ) (w : World),
      (∀ b ∈ w.staticBodies, b.invMass = 0) →
      (deltas.foldl (fun wi δ => World.update sqrtF δ wi) w).staticBodies =
        w.staticBodies) := by
  refine ⟨mkBody_static_invMass, ?_, ?_, ?_⟩
  · intro o
    exact ⟨rfl, mkBody_static_invMass _ rfl⟩
  · intro w b
    unfold World.addBody
    split_ifs <;> rfl
  · intro sqrtF deltas w hstat
    exact foldl_preserve (fun wi : World => wi.staticBodies = w.staticBodies) _
      (fun wi δ hwi =>
        (update_stat sqrtF δ wi (by rw [hwi]; exact hstat)).trans hwi) deltas w rfl

/-- World with one static box obstacle, for the C4 witness. -/
def worldC4 : World :=
  World.addBody (mkWorld (-20) 120) (mkStaticBody { halfExtents := some ⟨1, 1, 1⟩ })

/-- Witness for `c4_static_bodies`: a world holding one static box obstacle
survives an `update` with its static list unchanged. -/
theorem c4_static_bodies_witness :
    (∀ b ∈ worldC4.staticBodies, b.invMass = 0) ∧
    (([1/120] : List ℚ).foldl (fun wi δ => World.update sqrt0 δ wi) worldC4).staticBodies =
      worldC4.staticBodies := by
  have hstat : ∀ b ∈ worldC4.staticBodies, b.invMass = 0 := by
    intro b hb
    have hlist : worldC4.staticBodies =
        [mkStaticBody { halfExtents := some ⟨1, 1, 1⟩ }] := by
      with_unfolding_all rfl
    rw [hlist] at hb
    simp only [List.mem_singleton] at hb
    rw [hb]
    with_unfolding_all rfl
  exact ⟨hstat, c4_static_bodies.2.2.2 sqrt0 [1/120] worldC4 hstat⟩

/-- C5 counterexample: constructing a `PhysicsBody` with `mass: 0` and
`isStatic` unset yields `inverseMass = 0` on a non-static body, refuting the
claimed invariant `inverseMass == 0 ⟺ isStatic` for every combination of the
constructor options. -/
theorem c5_counterexample :
    (mkBody { mass := some 0 }).invMass = 0 ∧
    (mkBody { mass := some 0 }).isStatic = false ∧
    ¬ ((mkBody { mass := some 0 }).invMass = 0 ↔
        (mkBody { mass := some 0 }).isStatic = true) := by
  have h1 : (mkBody { mass := some 0 }).invMass = 0 := by with_unfolding_all rfl
  have h2 : (mkBody { mass := some 0 }).isStatic = false := by with_unfolding_all rfl
  refine ⟨h1, h2, ?_⟩
  intro h
  have := h.mp h1
  rw [h2] at this
  exact Bool.false_ne_true this

/-- C5 (corrected): after construction, `isStatic → inverseMass = 0` always
holds, and `inverseMass = 0 ⟺ isStatic` holds whenever the mass option is
positive (its default is 1; a zero or negative mass with `isStatic` unset
breaks the ⟸ direction); both fields are preserved by every physics
operation — force/impulse application, force and velocity integration, the
planet safety check, radial gravity, surface interaction, the flat-world
bounds check, collision resolution, and whole `update()` calls. -/
theorem c5_amended :
    (∀ o : BodyOptions, (mkBody o).isStatic = true → (mkBody o).invMass = 0) ∧
    (∀ o : BodyOptions, 0 < o.mass.getD 1 →
      ((mkBody o).invMass = 0 ↔ (mkBody o).isStatic = true)) ∧
    (∀ (b : Body) (f : Vec3), massSig (b.applyForce f) = massSig b) ∧
    (∀ (b : Body) (j : Vec3), massSig (b.applyImpulse j) = massSig b) ∧
    (∀ (dt : ℚ) (b : Body), massSig (Body.integrateForces dt b) = massSig b) ∧
    (∀ (sqrtF : ℚ → ℚ) (dt : ℚ) (b : Body),
      massSig (Body.integrateVelocity sqrtF dt b) = massSig b) ∧
    (∀ (sqrtF : ℚ → ℚ) (p : Planet) (b : Body),
      massSig (World.planetSafetyCheck sqrtF p b) = massSig b ∧
      massSig (p.applyGravitationalForce sqrtF b) = massSig b) ∧
    (∀ (sqrtF : ℚ → ℚ) (p : Planet) (dt : ℚ) (b : Body),
      massSig (p.handlePlanetSurfaceInteraction sqrtF dt b) = massSig b) ∧
    (∀ (w : World) (b : Body), massSig (World.checkWorldBounds w b) = massSig b) ∧
    (∀ (sqrtF : ℚ → ℚ) (a b : Body),
      massSig (World.resolveCollision sqrtF a b).1 = massSig a ∧
      massSig (World.resolveCollision sqrtF a b).2 = massSig b) ∧
    (∀ (sqrtF : ℚ → ℚ) (δ : ℚ) (w : World),
      (World.update sqrtF δ w).bodies.map massSig = w.bodies.map massSig ∧
      (World.update sqrtF δ w).staticBodies.map massSig =
        w.staticBodies.map massSig) :=
  ⟨mkBody_static_invMass, mkBody_invMass_iff, massSig_applyForce, massSig_applyImpulse,
    massSig_integrateForces, massSig_integrateVelocity,
    fun sqrtF p b => ⟨massSig_planetSafetyCheck sqrtF p b,
      massSig_applyGravitationalForce sqrtF p b⟩,
    massSig_surfaceInteraction, massSig_checkWorldBounds, massSig_resolveCollision,
    map_sig_update⟩

/-- Witness for `c5_amended` at a body of mass 2 (the `0 < mass` hypothesis
of the iff conjunct discharged concretely). -/
theorem c5_amended_witness :
    0 < (({ mass := some 2 } : BodyOptions)).mass.getD 1 ∧
    ((mkBody { mass := some 2 }).invMass = 0 ↔
      (mkBody { mass := some 2 }).isStatic = true) := by
  have hm : 0 < (({ mass := some 2 } : BodyOptions)).mass.getD 1 := by
    simp
  exact ⟨hm, c5_amended.2.1 { mass := some 2 } hm⟩

theorem Vec3.sub_eq_zero_iff (a b : Vec3) : a - b = 0 ↔ a = b := by
  cases a; cases b
  simp only [Vec3.sub_def, Vec3.zero_def, Vec3.mk.injEq]
  constructor
  · rintro ⟨h1, h2, h3⟩
    exact ⟨by linarith, by linarith, by linarith⟩
  · rintro ⟨h1, h2, h3⟩
    exact ⟨by linarith, by linarith, by linarith⟩

theorem applyForce_position (b : Body) (f : Vec3) :
    (b.applyForce f).position = b.position := by
  unfold Body.applyForce; split_ifs <;> rfl

theorem setOnGround_position (b : Body) (g : Bool) :
    (b.setOnGround g).position = b.position := rfl

theorem surfaceGroundStep_position (radialDir : Vec3) (b : Body) :
    (Planet.surfaceGroundStep radialDir b).position = b.position := by
  simp only [Planet.surfaceGroundStep]; split_ifs <;> rfl

theorem surfaceTeleportStep_position (sqrtF : ℚ → ℚ) (p : Planet) (fc : Vec3)
    (distance : ℚ) (b : Body) :
    (Planet.surfaceTeleportStep sqrtF p fc distance b).1.position =
      (if distance < p.minSafeDistance then
        p.center + (p.minSafeDistance + jsOr b.radius (1/2)) • Vec3.normalize sqrtF fc
      else b.position) := by
  simp only [Planet.surfaceTeleportStep]; split_ifs <;> rfl

/-- Position of a body after the planet surface-interaction pass: only the
safety teleport can move it. -/
theorem surfaceInteraction_position (sqrtF : ℚ → ℚ) (p : Planet) (dt : ℚ) (c : Body)
    (hg : c.usesGravity = true) :
    (p.handlePlanetSurfaceInteraction sqrtF dt c).position =
      (if max (sqrtF (Vec3.lengthSq (c.position - p.center))) p.epsilon <
          p.minSafeDistance then
        p.center + (p.minSafeDistance + jsOr c.radius (1/2)) •
          Vec3.normalize sqrtF (c.position - p.center)
      else c.position) := by
  simp only [Planet.handlePlanetSurfaceInteraction, hg, Bool.not_true, Bool.false_eq_true,
    if_false]
  rw [surfaceGroundStep_position, apply_ite (fun x : Body => x.position)]
  simp only [applyForce_position, setOnGround_position, ite_self]
  rw [surfaceTeleportStep_position]

/-- After the surface-interaction pass, a gravity-using body not exactly at
the planet center ends at squared distance at least `minSafeDistance ^ 2` from
the center (given an exact square root at the occurring input). -/
theorem surfaceInteraction_pos_bound (sqrtF : ℚ → ℚ) (p : Planet) (dt : ℚ) (c : Body)
    (hg : c.usesGravity = true)
    (hne : c.position ≠ p.center)
    (hsq : SqrtOk sqrtF (Vec3.lengthSq (c.position - p.center)))
    (hr : 0 ≤ jsOr c.radius (1/2))
    (hms : 0 ≤ p.minSafeDistance)
    (heps : p.epsilon < p.minSafeDistance) :
    p.minSafeDistance ^ 2 ≤
      Vec3.distSq (p.handlePlanetSurfaceInteraction sqrtF dt c).position p.center := by
  obtain ⟨hs0, hs2⟩ := hsq
  have hL : 0 < Vec3.lengthSq (c.position - p.center) := by
    rcases lt_or_eq_of_le (Vec3.lengthSq_nonneg (c.position - p.center)) with h | h
    · exact h
    · exfalso
      exact hne ((Vec3.sub_eq_zero_iff _ _).mp
        ((Vec3.lengthSq_eq_zero_iff _).mp h.symm))
  have hspos : 0 < sqrtF (Vec3.lengthSq (c.position - p.center)) := by
    rcases lt_or_eq_of_le hs0 with h | h
    · exact h
    · exfalso
      have hs' : sqrtF (Vec3.lengthSq (c.position - p.center)) = 0 := h.symm
      rw [hs', zero_mul] at hs2
      linarith
  rw [surfaceInteraction_position sqrtF p dt c hg]
  split_ifs with htel
  · have hcd : p.center + (p.minSafeDistance + jsOr c.radius (1/2)) •
        Vec3.normalize sqrtF (c.position - p.center) - p.center =
        (p.minSafeDistance + jsOr c.radius (1/2)) •
          Vec3.normalize sqrtF (c.position - p.center) := by
      apply Vec3.ext3 <;> simp <;> ring
    unfold Vec3.distSq
    rw [hcd]
    have hnu : Vec3.lengthSq (Vec3.normalize sqrtF (c.position - p.center)) = 1 := by
      simp only [Vec3.normalize, Vec3.divScalar]
      rw [if_neg (ne_of_gt hspos)]
      rw [Vec3.lengthSq_smul]
      rw [show (1 / sqrtF (Vec3.lengthSq (c.position - p.center))) ^ 2 *
          Vec3.lengthSq (c.position - p.center) =
          Vec3.lengthSq (c.position - p.center) /
            (sqrtF (Vec3.lengthSq (c.position - p.center)) *
              sqrtF (Vec3.lengthSq (c.position - p.center))) from by ring]
      rw [hs2]
      exact div_self (ne_of_gt hL)
    rw [Vec3.lengthSq_smul, hnu, mul_one]
    nlinarith
  · have hsge : p.minSafeDistance ≤ sqrtF (Vec3.lengthSq (c.position - p.center)) := by
      by_contra hcon
      push_neg at hcon
      exact htel (max_lt hcon heps)
    unfold Vec3.distSq
    nlinarith

theorem gravRadius_planetSafetyCheck (sqrtF : ℚ → ℚ) (p : Planet) (b : Body) :
    (World.planetSafetyCheck sqrtF p b).usesGravity = b.usesGravity ∧
    (World.planetSafetyCheck sqrtF p b).radius = b.radius := by
  simp only [World.planetSafetyCheck]; split_ifs <;> exact ⟨rfl, rfl⟩

theorem gravRadius_integrateVelocity (sqrtF : ℚ → ℚ) (dt : ℚ) (b : Body) :
    (Body.integrateVelocity sqrtF dt b).usesGravity = b.usesGravity ∧
    (Body.integrateVelocity sqrtF dt b).radius = b.radius := by
  unfold Body.integrateVelocity; split_ifs <;> exact ⟨rfl, rfl⟩

theorem gravRadius_gravityPhaseBody (sqrtF : ℚ → ℚ) (dt : ℚ) (w : World) (b : Body) :
    (World.gravityPhaseBody sqrtF dt w b).usesGravity = b.usesGravity ∧
    (World.gravityPhaseBody sqrtF dt w b).radius = b.radius := by
  cases hw : w.planetBody with
  | none =>
      simp only [World.gravityPhaseBody, hw, Body.integrateForces, Body.applyForce]
      split_ifs <;> exact ⟨rfl, rfl⟩
  | some p =>
      simp only [World.gravityPhaseBody, hw, Body.integrateForces,
        Planet.applyGravitationalForce, Body.applyForce]
      split_ifs <;> exact ⟨rfl, rfl⟩

theorem gravRadius_preSurfaceBody (sqrtF : ℚ → ℚ) (dt : ℚ) (w : World) (p : Planet)
    (b : Body) :
    (World.preSurfaceBody sqrtF dt w p b).usesGravity = b.usesGravity ∧
    (World.preSurfaceBody sqrtF dt w p b).radius = b.radius := by
  unfold World.preSurfaceBody
  constructor
  · rw [(gravRadius_gravityPhaseBody sqrtF dt w _).1,
      (gravRadius_integrateVelocity sqrtF dt _).1,
      (gravRadius_planetSafetyCheck sqrtF p b).1]
  · rw [(gravRadius_gravityPhaseBody sqrtF dt w _).2,
      (gravRadius_integrateVelocity sqrtF dt _).2,
      (gravRadius_planetSafetyCheck sqrtF p b).2]

theorem fixedUpdate_singleton (sqrtF : ℚ → ℚ) (dt : ℚ) (w : World) (p : Planet)
    (b : Body) (hp : w.planetBody = some p) (hb : w.bodies = [b])
    (hs : w.staticBodies = []) :
    (World.fixedUpdate sqrtF dt w).bodies =
      [p.handlePlanetSurfaceInteraction sqrtF dt
        (World.preSurfaceBody sqrtF dt w p b)] := by
  simp only [World.fixedUpdate, hp, hb, hs, List.map_cons, List.map_nil,
    Option.isSome_some, if_true]
  rfl

/-- C1 (corrected): in a world with a planet field and a single dynamic
gravity-using body placed at `minSafeDistance - 1` from the planet center, an
`update()` call that performs one physics sub-step leaves the body at squared
distance at least `minSafeDistance ^ 2` from the center (either the
surface-interaction check found it already outside, or its safety teleport
moved it to exactly `minSafeDistance + bodyRadius`); the inward radial
velocity, however, is *not* zero at the end of the call in general — the
emergency teleport at the top of `fixedUpdate` does not touch velocity, and
gravity integration later in the sub-step leaves an inward component unless
the surface-interaction teleport re-fires (see `c1_counterexample`). -/
theorem c1_amended (sqrtF : ℚ → ℚ) (δ : ℚ) (w : World) (p : Planet) (b : Body)
    (hp : w.planetBody = some p) (hb : w.bodies = [b]) (hs : w.staticBodies = [])
    (hstart : Vec3.distSq b.position p.center = (p.minSafeDistance - 1) ^ 2)
    (hg : b.usesGravity = true)
    (hft : 0 < w.fixedTimeStep)
    (hacc1 : w.fixedTimeStep ≤ w.accumulator + min δ (1/10))
    (hacc2 : w.accumulator + min δ (1/10) < 2 * w.fixedTimeStep)
    (hmax : 2 ≤ w.maxSubSteps)
    (hne : (World.preSurfaceBody sqrtF w.fixedTimeStep w p b).position ≠ p.center)
    (hsq : SqrtOk sqrtF (Vec3.lengthSq
      ((World.preSurfaceBody sqrtF w.fixedTimeStep w p b).position - p.center)))
    (hr : 0 ≤ jsOr b.radius (1/2))
    (hms : 0 ≤ p.minSafeDistance)
    (heps : p.epsilon < p.minSafeDistance) :
    ∃ b', (World.update sqrtF δ w).bodies = [b'] ∧
      p.minSafeDistance ^ 2 ≤ Vec3.distSq b'.position p.center := by
  obtain ⟨m, hm⟩ : ∃ m, w.maxSubSteps = m + 2 := ⟨w.maxSubSteps - 2, by omega⟩
  have h2 : ¬ (w.accumulator + min δ (1/10) - w.fixedTimeStep ≥ w.fixedTimeStep) := by
    simp only [ge_iff_le, not_le]
    linarith
  have haux : World.updateStepsAux w.fixedTimeStep (m + 2)
      (w.accumulator + min δ (1/10)) 0 =
      ([w.fixedTimeStep], w.accumulator + min δ (1/10) - w.fixedTimeStep, 1) := by
    rw [World.updateStepsAux, if_pos hacc1, World.updateStepsAux, if_neg h2]
  have hsched : World.updateSteps w.fixedTimeStep w.maxSubSteps
      (w.accumulator + min δ (1/10)) =
      ([w.fixedTimeStep], w.accumulator + min δ (1/10) - w.fixedTimeStep) := by
    unfold World.updateSteps
    rw [hm, haux]
    dsimp only
    rw [if_neg (by rintro ⟨hc, _⟩; omega)]
  have hupd : (World.update sqrtF δ w).bodies =
      (World.fixedUpdate sqrtF w.fixedTimeStep w).bodies := by
    unfold World.update
    dsimp only
    rw [hsched]
    rfl
  rw [hupd, fixedUpdate_singleton sqrtF w.fixedTimeStep w p b hp hb hs]
  refine ⟨_, rfl, ?_⟩
  exact surfaceInteraction_pos_bound sqrtF p w.fixedTimeStep _
    (by rw [(gravRadius_preSurfaceBody sqrtF w.fixedTimeStep w p b).1]; exact hg)
    hne hsq
    (by rw [(gravRadius_preSurfaceBody sqrtF w.fixedTimeStep w p b).2]; exact hr)
    hms heps

/-- Planet of radius 20 at the origin (so `minSafeDistance = 18`). -/
def planetC1 : Planet := mkPlanet { radius := some 20 }

/-- Unit-radius dynamic body at distance 17 = `minSafeDistance - 1` from the
planet center. -/
def bodyC1 : Body := mkBody { position := some ⟨17, 0, 0⟩, radius := some 1 }

/-- Planet world holding only `bodyC1` (config gravity `-20`, 120 physics
FPS, so `fixedTimeStep = 1/120`). -/
def worldC1 : World :=
  { mkWorld (-20) 120 with bodies := [bodyC1], planetBody := some planetC1 }

set_option maxRecDepth 100000 in
/-- C1 counterexample: the body placed at `minSafeDistance - 1 = 17` from the
planet center is teleported out to distance 19 within one `update()` call,
but its velocity at the end of the call is `(-5/24, 0, 0)` — the radial
gravity increment accumulated *after* the emergency teleport — whose
component along the outward direction is negative. The claimed zero inward
radial velocity at the end of the call is therefore false: the emergency
teleport of `fixedUpdate` does not zero velocity, and the surface-interaction
teleport (which would) does not re-fire because the body is already outside
`minSafeDistance`. -/
theorem c1_counterexample :
    Vec3.distSq bodyC1.position planetC1.center = (planetC1.minSafeDistance - 1) ^ 2 ∧
    (World.update sqrt0 (1/120) worldC1).bodies.map
        (fun b => (b.position, b.velocity)) =
      [(⟨19, 0, 0⟩, ⟨-5/24, 0, 0⟩)] ∧
    Vec3.dot ⟨-5/24, 0, 0⟩ ((⟨19, 0, 0⟩ : Vec3) - planetC1.center) < 0 := by
  refine ⟨?_, ?_, ?_⟩
  · with_unfolding_all rfl
  · with_unfolding_all rfl
  · rw [show Vec3.dot ⟨-5/24, 0, 0⟩ ((⟨19, 0, 0⟩ : Vec3) - planetC1.center) = -95/24
      from by with_unfolding_all rfl]
    norm_num

set_option maxRecDepth 100000 in
/-- Witness for `c1_amended` at the concrete planet/body/world of the C1
counterexample, with `sqrt0` exact at the squared distances occurring in the
trace. -/
theorem c1_amended_witness :
    Vec3.distSq bodyC1.position planetC1.center = (planetC1.minSafeDistance - 1) ^ 2 ∧
    (∃ b', (World.update sqrt0 (1/120) worldC1).bodies = [b'] ∧
      planetC1.minSafeDistance ^ 2 ≤ Vec3.distSq b'.position planetC1.center) := by
  have hpos : (World.preSurfaceBody sqrt0 worldC1.fixedTimeStep worldC1 planetC1
      bodyC1).position = ⟨19, 0, 0⟩ := by
    with_unfolding_all rfl
  constructor
  · with_unfolding_all rfl
  · refine c1_amended sqrt0 (1/120) worldC1 planetC1 bodyC1 rfl rfl rfl ?_ rfl ?_ ?_ ?_ ?_
      ?_ ?_ ?_ ?_ ?_
    · with_unfolding_all rfl
    · rw [show worldC1.fixedTimeStep = 1/120 from by with_unfolding_all rfl]
      norm_num
    · rw [show worldC1.fixedTimeStep = 1/120 from by with_unfolding_all rfl,
        show worldC1.accumulator = 0 from by with_unfolding_all rfl]
      norm_num
    · rw [show worldC1.fixedTimeStep = 1/120 from by with_unfolding_all rfl,
        show worldC1.accumulator = 0 from by with_unfolding_all rfl]
      norm_num
    · rw [show worldC1.maxSubSteps = 3 from by with_unfolding_all rfl]
      norm_num
    · rw [hpos]
      rw [show planetC1.center = ⟨0, 0, 0⟩ from by with_unfolding_all rfl]
      intro h
      rw [Vec3.mk.injEq] at h
      norm_num at h
    · rw [show Vec3.lengthSq ((World.preSurfaceBody sqrt0 worldC1.fixedTimeStep worldC1
          planetC1 bodyC1).position - planetC1.center) = 361 from by
        with_unfolding_all rfl]
      constructor
      · rw [show sqrt0 361 = 19 from by with_unfolding_all rfl]
        norm_num
      · rw [show sqrt0 361 = 19 from by with_unfolding_all rfl]
        norm_num
    · rw [show jsOr bodyC1.radius (1/2) = 1 from by with_unfolding_all rfl]
      norm_num
    · rw [show planetC1.minSafeDistance = 18 from by with_unfolding_all rfl]
      norm_num
    · rw [show planetC1.minSafeDistance = 18 from by with_unfolding_all rfl,
        show planetC1.epsilon = 1/1000000 from by with_unfolding_all rfl]
      norm_num

/-- Unit-radius dynamic body fallen below the flat-world floor. -/
def bodyC8 : Body := mkBody { position := some ⟨0, -1, 0⟩, radius := some 1 }

/-- Flat world (no planet) holding only `bodyC8`. -/
def worldC8 : World := { mkWorld (-20) 120 with bodies := [bodyC8] }

set_option maxRecDepth 100000 in
/-- C8 (code bug): at the end of a fixed sub-step in a flat world, the
ground-bounds clamp has moved the body to height `0.05` but left its
collider center at the stale height `-1`: `checkWorldBounds` writes
`body.position.y` without calling `collider.updatePosition`, unlike every
other position write, so the claimed collider/body lockstep invariant is
violated at the end of the sub-step. -/
theorem c8_collider_divergence :
    (World.fixedUpdate sqrt0 (1/120) worldC8).bodies.map
        (fun b => (b.position, b.collider.position)) =
      [(⟨0, 1/20, 0⟩, ⟨0, -1, 0⟩)] ∧
    (World.fixedUpdate sqrt0 (1/120) worldC8).bodies.map
        (fun b => decide (b.position = b.collider.position)) = [false] := by
  constructor
  · with_unfolding_all rfl
  · with_unfolding_all rfl
